import Mathlib

/-!
# A shallow embedding of the Kairo request-routing and scheduling core

This file models, in Lean, the parts of the Kairo backend (a conversational
productivity-assistant server written in Python) that its specification makes
claims about:

* the outbound message queue of the CLI and WhatsApp bridges
  (bridge/cli_interface.py, bridge/whatsapp_interface.py);
* the request router (bridge/request_router.py);
* the agent-turn orchestrator and its tool-execution loop
  (agents/kairo_agent.py, agents/tool_definitions.py);
* the user-preference store (users/user_manager.py);
* the item store (tools/activity_db.py, services/task_manager.py);
* the ritual and reminder scans (services/scheduler_service.py,
  services/notification_service.py).

Python dictionaries holding records of known shape are modelled as Lean
structures; the SQLite tables are modelled as in-memory lists of records;
timestamps compared by the code are modelled through an abstract parsing
function standing for datetime.fromisoformat.  Python truthiness of optional
strings is modelled explicitly, and the Python string methods the router uses
(strip, startswith, split, lower) are re-implemented over the character list
of the string.  Where the Python code performs a function call whose argument
list does not match the signature of the callee (which raises TypeError at
run time), the call protocol itself is modelled: the parameter names of the
callee and the arguments of the call site are both transcribed from the
source, and the call raises unless they are compatible, exactly as in Python.
The language-model capability, the YAML template store and the cheat-command
table are external collaborators and appear as oracle functions in an
environment record.
-/

namespace Kairo

/-! ## Python primitives -/

/-- Python truthiness of an optional string value: None and the empty string
are falsy, every other string is truthy. -/
def truthyStr : Option String → Bool
  | none => false
  | some s => s ≠ ""

/-- Whitespace as recognised by str.strip / str.split. -/
def pyIsSpace (c : Char) : Bool :=
  c == ' ' || c == '\t' || c == '\n' || c == '\r'

/-- Python str.strip(). -/
def pyStrip (s : String) : String :=
  String.mk (((s.data.dropWhile pyIsSpace).reverse.dropWhile pyIsSpace).reverse)

/-- Python str.startswith for the one-character command marker of the
router. -/
def pyStartsWithSlash (s : String) : Bool :=
  match s.data with
  | c :: _ => c == '/'
  | [] => false

/-- Helper for pySplitWs: accumulate maximal runs of non-space characters. -/
def splitWsAux : List Char → List Char → List String → List String
  | [], cur, acc =>
      if cur.isEmpty then acc else acc ++ [String.mk cur.reverse]
  | c :: rest, cur, acc =>
      if pyIsSpace c then
        if cur.isEmpty then splitWsAux rest [] acc
        else splitWsAux rest [] (acc ++ [String.mk cur.reverse])
      else splitWsAux rest (c :: cur) acc

/-- Python str.split() with no separator: split on whitespace runs, dropping
empty pieces. -/
def pySplitWs (s : String) : List String :=
  splitWsAux s.data [] []

/-- Python str.lower(). -/
def pyToLower (s : String) : String :=
  String.mk (s.data.map Char.toLower)

/-- Lexicographic order on character lists, matching the byte order SQLite
uses for the ASCII ISO timestamps the tables store. -/
def charListLe : List Char → List Char → Bool
  | [], _ => true
  | _ :: _, [] => false
  | a :: as, b :: bs =>
      if a < b then true else if b < a then false else charListLe as bs

/-- Lexicographic string comparison (SQLite text ordering on the stored
timestamps). -/
def strLe (a b : String) : Bool := charListLe a.data b.data

/-! ## Records and tables -/

/-- One row of the messages audit table (tools/activity_db.py, table
`messages`).  Rows are kept in insertion order, which the code orders by
timestamp; the timestamp column itself is not inspected by any claim and is
not carried. -/
structure MsgRecord where
  user_id : String
  role : String
  message_type : String
  content : String
  deriving DecidableEq, Repr

/-- One entry of an outbound bridge queue (`outgoing_cli_messages` /
`outgoing_whatsapp_messages`): recipient, text, and the uuid assigned by
`send_message`. -/
structure QEntry where
  user_id : String
  message : String
  message_id : String
  deriving DecidableEq, Repr

/-- A user preference record (users/user_manager.py).  Field defaults are the
DEFAULT_PREFERENCES dictionary of the source; the ritual_days key is absent
from the defaults and therefore an Option. -/
structure Prefs where
  name : String := "friend"
  timezone : Option String := none
  language : String := "en"
  status : String := "new"
  morning_muster_time : Option String := some "08:00"
  evening_reflection_time : Option String := some "18:30"
  projects : List String := ["general", "work", "personal"]
  work_days : List String := ["Sunday", "Monday", "Tuesday", "Wednesday", "Thursday"]
  ritual_days : Option (List String) := none
  last_morning_trigger_date : String := ""
  last_evening_trigger_date : String := ""
  deriving DecidableEq, Repr

/-- The DEFAULT_PREFERENCES dictionary of users/user_manager.py. -/
def DEFAULT_PREFERENCES : Prefs := {}

/-- A dictionary of preference updates as passed to
user_manager.update_user_preferences: keys that are present overwrite the
stored value, keys that are absent leave it unchanged.  The fields listed are
exactly the keys the application ever writes: the four fields of the
update_user_preferences tool, the status writes of the router and of
finalize_onboarding, and the last-trigger-date writes of the scheduler. -/
structure PrefUpdates where
  name : Option String := none
  timezone : Option String := none
  language : Option String := none
  work_days : Option (List String) := none
  status : Option String := none
  last_morning_trigger_date : Option String := none
  last_evening_trigger_date : Option String := none
  deriving DecidableEq, Repr

/-- Python dict.update on a preference record. -/
def applyPrefUpdates (p : Prefs) (u : PrefUpdates) : Prefs :=
  { p with
    name := u.name.getD p.name
    timezone := (u.timezone.map some).getD p.timezone
    language := u.language.getD p.language
    work_days := u.work_days.getD p.work_days
    status := u.status.getD p.status
    last_morning_trigger_date :=
      u.last_morning_trigger_date.getD p.last_morning_trigger_date
    last_evening_trigger_date :=
      u.last_evening_trigger_date.getD p.last_evening_trigger_date }

/-- One row of the users_tasks table (tools/activity_db.py). -/
structure Item where
  item_id : String
  user_id : String
  type : String
  status : String
  description : String
  project : Option String := none
  due_date : Option String := none
  remind_at : Option String := none
  created_at : String
  updated_at : String
  size : Option String := none
  worktime : Option Int := none
  priority : Option Int := none
  urgency : Option Int := none
  main_task_id : Option String := none
  duration : Option Int := none
  calendar_id : Option String := none
  deriving DecidableEq, Repr

/-- The CHECK constraint on the type column of users_tasks. -/
def VALID_ITEM_TYPES : List String := ["task", "reminder"]

/-- The CHECK constraint on the status column of users_tasks. -/
def VALID_ITEM_STATUSES : List String := ["new", "in_progress", "completed", "deleted"]

/-- activity_db.add_or_update_item: rejects a falsy item_id, rejects rows
violating the CHECK constraints (the sqlite error path returning False), and
otherwise upserts by item_id (INSERT .. ON CONFLICT(item_id) DO UPDATE). -/
def add_or_update_item (items : List Item) (it : Item) : Bool × List Item :=
  if it.item_id = "" then (false, items)
  else if VALID_ITEM_TYPES.contains it.type && VALID_ITEM_STATUSES.contains it.status then
    if items.any (fun x => x.item_id == it.item_id) then
      (true, items.map (fun x => if x.item_id == it.item_id then it else x))
    else
      (true, items ++ [it])
  else (false, items)

/-- activity_db.get_item: SELECT by primary key. -/
def get_item (items : List Item) (item_id : String) : Option Item :=
  items.find? (fun x => x.item_id == item_id)

/-- activity_db.list_items_for_user: rows of one user, optionally restricted
to a set of statuses, ordered by created_at descending (ISO timestamps, so
string order is chronological order). -/
def list_items_for_user (items : List Item) (user_id : String)
    (status_filter : Option (List String)) : List Item :=
  let base := items.filter (fun it =>
    it.user_id == user_id &&
      match status_filter with
      | none => true
      | some fs => fs.contains it.status)
  base.insertionSort (fun a b => strLe b.created_at a.created_at = true)

/-- activity_db.list_messages_for_user: the most recent `limit` message rows
of one user, in chronological order (the source selects by timestamp
descending with LIMIT and then reverses). -/
def list_messages_for_user (messages : List MsgRecord) (user_id : String)
    (limit : Nat) : List MsgRecord :=
  let ms := messages.filter (fun m => m.user_id == user_id)
  ms.drop (ms.length - limit)

/-- One tool invocation requested by the model
(openai tool_calls entry: id, function name, raw JSON argument text). -/
structure ToolCall where
  id : String
  name : String
  arguments : String
  deriving DecidableEq, Repr

/-- The structured result dictionary every tool function returns
(agents/tool_definitions.py): success plus either an identifier or an error
description. -/
structure ToolResult where
  success : Bool
  item_id : Option String := none
  error : Option String := none
  deriving DecidableEq, Repr

/-- One row of the llm_activity audit table (tools/activity_db.py,
log_llm_activity): the invoking user, the tool name, the tool arguments and
the structured result.  The timestamp column is not inspected by any claim
and is not carried; the arguments are carried as the raw argument text of the
invocation. -/
structure LlmActivityRecord where
  user_id : String
  tool_name : String
  tool_args : String
  result : ToolResult
  deriving DecidableEq, Repr

/-- The mutable process state the claims observe: the in-memory preference
store of user_manager, the persistent tables of activity_db, the outbound
bridge queue, a counter producing the fresh uuids, and a counter of
caught-and-logged exceptions (each log_error call in an except handler). -/
structure SysState where
  prefsStore : List (String × Prefs) := []
  items : List Item := []
  messages : List MsgRecord := []
  queue : List QEntry := []
  llmActivity : List LlmActivityRecord := []
  uuidCounter : Nat := 0
  errors : Nat := 0
  deriving DecidableEq, Repr

/-- activity_db.log_llm_activity: append one tool-invocation audit row. -/
def log_llm_activity (st : SysState) (user_id tool_name tool_args : String)
    (result : ToolResult) : SysState :=
  { st with llmActivity := st.llmActivity ++ [⟨user_id, tool_name, tool_args, result⟩] }

/-- Lookup in the preference store (Python dict access by user id). -/
def storeFind (store : List (String × Prefs)) (user_id : String) : Option Prefs :=
  (store.find? (fun kv => kv.1 == user_id)).map Prod.snd

/-- Write-through to the preference store: replace the entry of the user, or
append a new entry. -/
def storeSet (store : List (String × Prefs)) (user_id : String) (p : Prefs) :
    List (String × Prefs) :=
  if store.any (fun kv => kv.1 == user_id) then
    store.map (fun kv => if kv.1 == user_id then (user_id, p) else kv)
  else store ++ [(user_id, p)]

/-- activity_db.log_message, as called from
user_manager.add_message_to_user_history: append one audit row. -/
def add_message_to_user_history (st : SysState)
    (user_id role message_type content : String) : SysState :=
  { st with messages := st.messages ++ [⟨user_id, role, message_type, content⟩] }

/-- user_manager.update_user_preferences: insert the defaults when the user is
absent, dict.update with the given keys, persist, return True. -/
def update_user_preferences (st : SysState) (user_id : String)
    (updates : PrefUpdates) : Bool × SysState :=
  let current := (storeFind st.prefsStore user_id).getD DEFAULT_PREFERENCES
  (true,
   { st with prefsStore := storeSet st.prefsStore user_id (applyPrefUpdates current updates) })

/-- The per-turn context bundle returned by user_manager.get_agent.  The
current_utc_date field models the key the router writes into the preference
dictionary of the bundle before invoking the agent (request_router.py
line 83); it is empty until the router sets it. -/
structure AgentState where
  user_id : String
  preferences : Prefs
  items : List Item
  conversation_history : List MsgRecord
  current_utc_date : String := ""
  deriving Repr

/-- user_manager.get_agent: create defaults on first access, then fetch the
active items (status new or in_progress) and the ten most recent history rows
from the database. -/
def get_agent (st : SysState) (user_id : String) : AgentState × SysState :=
  let resolved :=
    match storeFind st.prefsStore user_id with
    | some p => (p, st.prefsStore)
    | none => (DEFAULT_PREFERENCES, storeSet st.prefsStore user_id DEFAULT_PREFERENCES)
  let st1 := { st with prefsStore := resolved.2 }
  let active_items := list_items_for_user st1.items user_id (some ["new", "in_progress"])
  let history := list_messages_for_user st1.messages user_id 10
  ({ user_id := user_id, preferences := resolved.1, items := active_items,
     conversation_history := history }, st1)

/-- Fresh uuid for a queued outbound message (uuid.uuid4 in the source,
modelled by a counter). -/
def freshUuid (n : Nat) : String := "uuid-" ++ Nat.repr n

/-- CLIBridge.send_message / WhatsAppBridge.send_message: silently refuse an
empty recipient or empty text, otherwise append one entry with a fresh uuid to
the outbound queue.  The WhatsApp variant additionally decorates a purely
numeric recipient id with a channel suffix before queueing; the decoration
plays no role in any claim and is not carried. -/
def bridge_send_message (st : SysState) (user_id message : String) : SysState :=
  if user_id = "" ∨ message = "" then st
  else
    { st with
      queue := st.queue ++ [⟨user_id, message, freshUuid st.uuidCounter⟩]
      uuidCounter := st.uuidCounter + 1 }

/-- request_router.send_message: no-op on a falsy recipient or body; otherwise
first append the assistant audit row to the conversation history, then obtain
the bridge and attempt delivery; when the bridge is unavailable
(get_bridge returned None) only an error is logged. -/
def send_message (bridgeAvailable : Bool) (st : SysState)
    (user_id message_body : String) : SysState :=
  if user_id = "" ∨ message_body = "" then st
  else
    let st1 := add_message_to_user_history st user_id "assistant" "agent_text_response" message_body
    if bridgeAvailable then bridge_send_message st1 user_id message_body
    else { st1 with errors := st1.errors + 1 }

/-- request_router.normalize_user_id: strip every non-digit character. -/
def normalize_user_id (user_id_from_bridge : String) : String :=
  if user_id_from_bridge = "" then ""
  else String.mk (user_id_from_bridge.data.filter Char.isDigit)

/-! ## The queue endpoints of the CLI and WhatsApp bridges -/

/-- The GET /outgoing endpoint of the CLI bridge: returns a copy of the
queue and leaves the queue itself untouched
(bridge/cli_interface.py, `get_outgoing_cli_messages`). -/
def get_outgoing_cli_messages (queue : List QEntry) : List QEntry :=
  queue

/-- The POST /ack endpoint of the CLI bridge: rebuilds the queue without the
acknowledged id and reports whether the length changed
(bridge/cli_interface.py, `acknowledge_cli_message`). -/
def acknowledge_cli_message (message_id : String) (queue : List QEntry) :
    List QEntry × Bool :=
  let remaining := queue.filter (fun m => m.message_id != message_id)
  (remaining, remaining.length != queue.length)

/-- The GET /outgoing endpoint of the WhatsApp bridge, identical in logic to
the CLI one (bridge/whatsapp_interface.py, `get_outgoing_whatsapp_messages`). -/
def get_outgoing_whatsapp_messages (queue : List QEntry) : List QEntry :=
  queue

/-- The POST /ack endpoint of the WhatsApp bridge
(bridge/whatsapp_interface.py, `acknowledge_whatsapp_message`). -/
def acknowledge_whatsapp_message (message_id : String) (queue : List QEntry) :
    List QEntry × Bool :=
  let remaining := queue.filter (fun m => m.message_id != message_id)
  (remaining, remaining.length != queue.length)

/-! ## Tools acting on preferences, and the public-interface status machine -/

/-- The parameter model of the update_user_preferences tool
(agents/tool_definitions.py, UpdateUserPreferencesParams): the model may set
name, timezone, language and work_days — there is no status field. -/
structure UpdateUserPreferencesParams where
  name : Option String := none
  timezone : Option String := none
  language : Option String := none
  work_days : Option (List String) := none
  deriving DecidableEq, Repr

/-- model_dump(exclude_unset, exclude_none) of UpdateUserPreferencesParams as
a preference update dictionary: only the four tool fields can ever be present,
so the status key is never written by this tool. -/
def paramsToUpdates (p : UpdateUserPreferencesParams) : PrefUpdates :=
  { name := p.name, timezone := p.timezone, language := p.language,
    work_days := p.work_days }

/-- The tool update_user_preferences acting on one preference record: rejects
an empty update set without writing, otherwise merges the four possible keys
(agents/tool_definitions.py, update_user_preferences). -/
def tool_update_user_preferences (p : UpdateUserPreferencesParams)
    (prefs : Prefs) : Prefs :=
  if p.name = none ∧ p.timezone = none ∧ p.language = none ∧ p.work_days = none then
    prefs
  else applyPrefUpdates prefs (paramsToUpdates p)

/-- The tool finalize_onboarding acting on one preference record: writes
status active unconditionally (agents/tool_definitions.py,
finalize_onboarding). -/
def tool_finalize_onboarding (prefs : Prefs) : Prefs :=
  applyPrefUpdates prefs { status := some "active" }

/-- Every preference-store write reachable from the public interface, as an
operation on one preference record of one user:
* inboundMessage — the router new-user short circuit, the only router write
  of status (request_router.py line 92, guarded by status new);
* toolUpdatePreferences, toolFinalizeOnboarding — the two tools that touch
  preferences;
* itemWrite — create_task, create_reminder, update_item and the reminder scan
  completion write, all of which touch only the users_tasks table;
* schedulerMorningMark, schedulerEveningMark — the last-trigger-date writes
  of the ritual scan (scheduler_service.py lines 40 and 44). -/
inductive PublicOp where
  | inboundMessage
  | toolUpdatePreferences (p : UpdateUserPreferencesParams)
  | toolFinalizeOnboarding
  | itemWrite
  | schedulerMorningMark (d : String)
  | schedulerEveningMark (d : String)
  deriving DecidableEq, Repr

/-- Effect of one public operation on the preference record of the user. -/
def applyPublicOp (op : PublicOp) (prefs : Prefs) : Prefs :=
  match op with
  | .inboundMessage =>
      if prefs.status = "new" then applyPrefUpdates prefs { status := some "onboarding" }
      else prefs
  | .toolUpdatePreferences p => tool_update_user_preferences p prefs
  | .toolFinalizeOnboarding => tool_finalize_onboarding prefs
  | .itemWrite => prefs
  | .schedulerMorningMark d =>
      applyPrefUpdates prefs { last_morning_trigger_date := some d }
  | .schedulerEveningMark d =>
      applyPrefUpdates prefs { last_evening_trigger_date := some d }

/-- Effect of a sequence of public operations, first operation first. -/
def applyPublicOps (ops : List PublicOp) (prefs : Prefs) : Prefs :=
  ops.foldl (fun p op => applyPublicOp op p) prefs

/-- Position of a status value in the onboarding order. -/
def statusRank (s : String) : Nat :=
  if s = "onboarding" then 1 else if s = "active" then 2 else 0

/-! ## The router, the call protocol, and the WhatsApp background task -/

/-- The parameter names of agents/kairo_agent.py handle_user_request
(line 16): there is no system_prompt parameter. -/
def handle_user_request_params : List String :=
  ["user_id", "message", "full_context"]

/-- The keyword arguments the router passes when invoking handle_user_request
(request_router.py lines 104-106 and 132-134). -/
def router_agent_call_kwargs : List String :=
  ["user_id", "message", "full_context", "system_prompt"]

/-- Python keyword-call compatibility: a call raises TypeError when some
keyword argument is not among the parameters of the callee. -/
def kwargsAccepted (params kwargs : List String) : Bool :=
  kwargs.all (fun k => params.contains k)

/-- The parameter names of bridge/request_router.py handle_incoming_message
(line 63): exactly two positional parameters, no message_id. -/
def handle_incoming_message_params : List String :=
  ["user_id_from_bridge", "message_text"]

/-- The positional arguments bridge/whatsapp_interface.py passes to
handle_incoming_message (line 44): user id, message text and the message id
(the Python None is itself an argument and is rendered here as a
placeholder). -/
def whatsapp_router_call_args (user_id message : String)
    (message_id : Option String) : List String :=
  [user_id, message, message_id.getD "None"]

/-- Lookup with default on a string-keyed template dictionary
(Python dict.get(key, default)). -/
def dictGet (d : List (String × String)) (k dflt : String) : String :=
  (((d.find? (fun kv => kv.1 == k)).map Prod.snd)).getD dflt

/-- The result dictionary of services/cheats.py handle_cheat_command: either
a direct reply or a request to synthesize an internal system event. -/
inductive CheatAction where
  | message (content : String)
  | systemEvent (trigger_type : String)

/-- The external collaborators of the router and orchestrator: the YAML
prompt store (get_prompt), the YAML message-template store
(get_message_templates), the cheat-command table, and an oracle giving the
reply handle_user_request would produce for given arguments if the call to it
succeeded. -/
structure RouterEnv where
  prompts : String → Option String
  templates : String → Option (List (String × String))
  cheat : String → String → List String → CheatAction
  agentReply : String → String → AgentState → String → Option String

/-- The module-level generic fallback message of request_router.py:
the en entry of the generic_error_message template, with the hard-coded
default. -/
def GENERIC_ERROR_MSG_ROUTER (env : RouterEnv) : String :=
  dictGet ((env.templates "generic_error_message").getD []) "en"
    "Sorry, an error occurred."

/-- json.dumps of the synthetic trigger payload of
handle_internal_system_event. -/
def trigger_as_message (trigger_type : String) : String :=
  "\x7b\"trigger\": \"" ++ trigger_type ++ "\"\x7d"

/-- request_router.handle_internal_system_event: ignore incomplete events and
non-active users, then invoke the agent with the synthetic trigger payload and
send its reply.  The source passes the keyword argument system_prompt, which
handle_user_request does not accept, so the call raises TypeError; the except
handler only logs (no fallback is sent on this path). -/
def handle_internal_system_event (env : RouterEnv) (bridgeAvailable : Bool)
    (today user_id trigger_type : String) (st : SysState) : SysState :=
  if user_id = "" ∨ trigger_type = "" then st
  else
    let fetched := get_agent st user_id
    let agent_state := { fetched.1 with current_utc_date := today }
    let st1 := fetched.2
    if agent_state.preferences.status ≠ "active" then st1
    else if truthyStr (env.prompts "kairo_agent_system_prompt") = false then
      { st1 with errors := st1.errors + 1 }
    else if kwargsAccepted handle_user_request_params router_agent_call_kwargs then
      match env.agentReply user_id (trigger_as_message trigger_type) agent_state
          ((env.prompts "kairo_agent_system_prompt").getD "") with
      | some r => if r ≠ "" then send_message bridgeAvailable st1 user_id r else st1
      | none => st1
    else { st1 with errors := st1.errors + 1 }

/-- request_router.handle_incoming_message (the two-parameter function at
line 63): normalize the sender, audit the raw text, dispatch commands,
short-circuit brand-new users with the localized welcome, and otherwise
invoke the agent and send its reply, mapping an uncaught error to the generic
fallback.  The agent invocation passes the keyword argument system_prompt,
which handle_user_request does not accept, so in the source the call raises
TypeError and the except branch runs. -/
def handle_incoming_message (env : RouterEnv) (bridgeAvailable : Bool)
    (today user_id_from_bridge message_text : String) (st : SysState) : SysState :=
  let norm_user_id := normalize_user_id user_id_from_bridge
  if norm_user_id = "" then st
  else
    let st1 := add_message_to_user_history st norm_user_id "user" "user_text" message_text
    if pyStartsWithSlash (pyStrip message_text) then
      let parts := pySplitWs (pyStrip message_text)
      let command := pyToLower (parts.headD "")
      let args := parts.tail
      match env.cheat norm_user_id command args with
      | .message content => send_message bridgeAvailable st1 norm_user_id content
      | .systemEvent trigger_type =>
          handle_internal_system_event env bridgeAvailable today norm_user_id trigger_type st1
    else
      let fetched := get_agent st1 norm_user_id
      let agent_state := { fetched.1 with current_utc_date := today }
      let st2 := fetched.2
      let user_status := agent_state.preferences.status
      if user_status = "new" then
        let user_lang := agent_state.preferences.language
        let welcome :=
          dictGet ((env.templates "initial_welcome_message").getD []) user_lang "Hello!"
        let st3 := send_message bridgeAvailable st2 norm_user_id welcome
        (update_user_preferences st3 norm_user_id { status := some "onboarding" }).2
      else
        let prompt_key :=
          if user_status = "onboarding" then "kairo_onboarding_system_prompt"
          else "kairo_agent_system_prompt"
        if truthyStr (env.prompts prompt_key) = false then
          let st3 := { st2 with errors := st2.errors + 1 }
          send_message bridgeAvailable st3 norm_user_id (GENERIC_ERROR_MSG_ROUTER env)
        else if kwargsAccepted handle_user_request_params router_agent_call_kwargs then
          match env.agentReply norm_user_id message_text agent_state
              ((env.prompts prompt_key).getD "") with
          | some r => if r ≠ "" then send_message bridgeAvailable st2 norm_user_id r else st2
          | none => st2
        else
          let st3 := { st2 with errors := st2.errors + 1 }
          send_message bridgeAvailable st3 norm_user_id (GENERIC_ERROR_MSG_ROUTER env)

/-- bridge/whatsapp_interface.py process_incoming_message_background: calls
handle_incoming_message with three positional arguments
(user_id, message, message_id).  The callee declares two parameters, so in
Python the call raises TypeError, which the surrounding except logs; the
message is never routed. -/
def process_incoming_message_background (env : RouterEnv) (bridgeAvailable : Bool)
    (today user_id message : String) (message_id : Option String)
    (st : SysState) : SysState :=
  if (whatsapp_router_call_args user_id message message_id).length
      = handle_incoming_message_params.length then
    handle_incoming_message env bridgeAvailable today user_id message st
  else { st with errors := st.errors + 1 }

/-- A concrete environment for closed evaluations: every prompt and template
present, a cheat table that only ever replies OK, and an agent oracle that
would reply if it were reachable. -/
def testEnv : RouterEnv where
  prompts := fun _ => some "SYSTEM PROMPT"
  templates := fun key =>
    if key = "generic_error_message" then some [("en", "Sorry, an error occurred.")]
    else if key = "initial_welcome_message" then some [("en", "Hello!")]
    else none
  cheat := fun _ _ _ => .message "OK."
  agentReply := fun _ _ _ _ => some "agent reply"

/-- A state holding one user whose onboarding status is onboarding. -/
def onboardingState : SysState :=
  { prefsStore := [("15551234567", { status := "onboarding" })] }

/-! ## The ritual scan of the scheduler -/

/-- The local wall clock of one user at one scheduler tick, as the source
derives it from datetime.now(user_tz): weekday name (strftime %A), local
hour-minute (strftime %H:%M), and local calendar date (strftime %Y-%m-%d). -/
structure LocalNow where
  weekday : String
  hm : String
  dateStr : String
  deriving DecidableEq, Repr

/-- The body of the per-user loop of
scheduler_service._check_and_trigger_routines: skip non-active users and
users without a timezone, skip when the local weekday is not among the ritual
days (the ritual_days key falling back to work_days), then raise the morning
and the evening trigger events independently — each fires when its configured
time is set, the local hour-minute equals it, and the last-trigger-date
differs from today, and each immediately records today as the new
last-trigger-date.  Returns the trigger events raised (in order) and the
preference record after the writes. -/
def check_and_trigger_routines_user (prefs : Prefs) (now : LocalNow) :
    List String × Prefs :=
  if prefs.status ≠ "active" ∨ truthyStr prefs.timezone = false then ([], prefs)
  else
    let ritual_days := prefs.ritual_days.getD prefs.work_days
    if ritual_days.contains now.weekday = false then ([], prefs)
    else
      let fireMorning :=
        truthyStr prefs.morning_muster_time &&
          now.hm == prefs.morning_muster_time.getD "" &&
          prefs.last_morning_trigger_date != now.dateStr
      let p1 :=
        if fireMorning then
          applyPrefUpdates prefs { last_morning_trigger_date := some now.dateStr }
        else prefs
      let fireEvening :=
        truthyStr prefs.evening_reflection_time &&
          now.hm == prefs.evening_reflection_time.getD "" &&
          prefs.last_evening_trigger_date != now.dateStr
      let p2 :=
        if fireEvening then
          applyPrefUpdates p1 { last_evening_trigger_date := some now.dateStr }
        else p1
      ((if fireMorning then ["morning_muster"] else []) ++
        (if fireEvening then ["evening_reflection"] else []), p2)

/-- An active user with a timezone whose allowed ritual days are the default
work days (Sunday through Thursday). -/
def activeDefaultDaysPrefs : Prefs :=
  { status := "active", timezone := some "Asia/Jerusalem" }

/-- A tick at the configured morning time on a Friday, which is not among the
default work days. -/
def fridayMorningNow : LocalNow :=
  { weekday := "Friday", hm := "08:00", dateStr := "2026-10-16" }

/-! ## task_manager and the tool functions -/

/-- The optional item fields a create call may carry
(services/task_manager.py create_item merges them over the base record;
model_dump(exclude_none) of the pydantic parameter models). -/
structure ItemParams where
  description : Option String := none
  project : Option String := none
  due_date : Option String := none
  remind_at : Option String := none
  size : Option String := none
  worktime : Option Int := none
  priority : Option Int := none
  urgency : Option Int := none
  main_task_id : Option String := none
  duration : Option Int := none
  deriving DecidableEq, Repr

/-- An update dictionary for an existing item, over the mutable columns the
update_item tool documents; keys that are present overwrite the stored
value ({**existing_item, **updates}). -/
structure ItemUpdates where
  status : Option String := none
  description : Option String := none
  project : Option String := none
  due_date : Option String := none
  remind_at : Option String := none
  size : Option String := none
  worktime : Option Int := none
  priority : Option Int := none
  urgency : Option Int := none
  main_task_id : Option String := none
  duration : Option Int := none
  deriving DecidableEq, Repr

/-- Python dict merge {**existing_item, **updates} on an item row. -/
def applyItemUpdates (it : Item) (u : ItemUpdates) : Item :=
  { it with
    status := u.status.getD it.status
    description := u.description.getD it.description
    project := (u.project.map some).getD it.project
    due_date := (u.due_date.map some).getD it.due_date
    remind_at := (u.remind_at.map some).getD it.remind_at
    size := (u.size.map some).getD it.size
    worktime := (u.worktime.map some).getD it.worktime
    priority := (u.priority.map some).getD it.priority
    urgency := (u.urgency.map some).getD it.urgency
    main_task_id := (u.main_task_id.map some).getD it.main_task_id
    duration := (u.duration.map some).getD it.duration }

/-- services/task_manager.py create_item: build the new row with a fresh
uuid, status new, equal created/updated timestamps and a default description,
then insert it through add_or_update_item. -/
def create_item (now user_id item_type : String) (params : ItemParams)
    (st : SysState) : ToolResult × SysState :=
  let new_id := freshUuid st.uuidCounter
  let st1 := { st with uuidCounter := st.uuidCounter + 1 }
  let new_item : Item :=
    { item_id := new_id, user_id := user_id, type := item_type, status := "new",
      created_at := now, updated_at := now,
      description := params.description.getD "No description provided",
      project := params.project, due_date := params.due_date,
      remind_at := params.remind_at, size := params.size,
      worktime := params.worktime, priority := params.priority,
      urgency := params.urgency, main_task_id := params.main_task_id,
      duration := params.duration }
  let res := add_or_update_item st1.items new_item
  if res.1 then
    ({ success := true, item_id := some new_id }, { st1 with items := res.2 })
  else
    ({ success := false,
       error := some ("Failed to create " ++ item_type ++ ".") }, st1)

/-- services/task_manager.py update_item: fetch the full record, reject a
missing item or an owner mismatch, merge the updates with a fresh updated_at,
and save the merged row back through add_or_update_item. -/
def task_manager_update_item (now user_id item_id : String)
    (updates : ItemUpdates) (st : SysState) : ToolResult × SysState :=
  match get_item st.items item_id with
  | none => ({ success := false, error := some "Item not found." }, st)
  | some existing =>
    if existing.user_id ≠ user_id then
      ({ success := false, error := some "Item not found." }, st)
    else
      let final_payload := { applyItemUpdates existing updates with updated_at := now }
      let res := add_or_update_item st.items final_payload
      if res.1 then
        ({ success := true, item_id := some item_id }, { st with items := res.2 })
      else
        ({ success := false, error := some "Failed to update item." }, st)

/-- agents/tool_definitions.py CreateTaskParams. -/
structure CreateTaskParams where
  description : String
  project : Option String := none
  due_date : Option String := none
  size : Option String := none
  worktime : Option Int := none
  priority : Option Int := none
  urgency : Option Int := none
  main_task_id : Option String := none
  deriving DecidableEq, Repr

/-- agents/tool_definitions.py CreateReminderParams. -/
structure CreateReminderParams where
  description : String
  remind_at : String
  duration : Option Int := none
  deriving DecidableEq, Repr

/-- agents/tool_definitions.py UpdateItemParams. -/
structure UpdateItemParams where
  item_id : String
  updates : ItemUpdates
  deriving DecidableEq, Repr

/-- agents/tool_definitions.py FinalizeOnboardingParams (no parameters). -/
structure FinalizeOnboardingParams
  deriving DecidableEq, Repr

/-- model_dump(exclude_none) of CreateTaskParams as item fields. -/
def createTaskItemParams (p : CreateTaskParams) : ItemParams :=
  { description := some p.description, project := p.project,
    due_date := p.due_date, size := p.size, worktime := p.worktime,
    priority := p.priority, urgency := p.urgency,
    main_task_id := p.main_task_id }

/-- model_dump(exclude_none) of CreateReminderParams as item fields. -/
def createReminderItemParams (p : CreateReminderParams) : ItemParams :=
  { description := some p.description, remind_at := some p.remind_at,
    duration := p.duration }

/-- agents/tool_definitions.py create_task. -/
def run_create_task (now user_id : String) (p : CreateTaskParams)
    (st : SysState) : ToolResult × SysState :=
  let created := create_item now user_id "task" (createTaskItemParams p) st
  if created.1.success then
    ({ success := true, item_id := created.1.item_id }, created.2)
  else
    ({ success := false, error := some "Failed to create task." }, created.2)

/-- agents/tool_definitions.py create_reminder. -/
def run_create_reminder (now user_id : String) (p : CreateReminderParams)
    (st : SysState) : ToolResult × SysState :=
  let created := create_item now user_id "reminder" (createReminderItemParams p) st
  if created.1.success then
    ({ success := true, item_id := created.1.item_id }, created.2)
  else
    ({ success := false, error := some "Failed to create reminder." }, created.2)

/-- agents/tool_definitions.py update_item. -/
def run_update_item (now user_id : String) (p : UpdateItemParams)
    (st : SysState) : ToolResult × SysState :=
  let updated := task_manager_update_item now user_id p.item_id p.updates st
  if updated.1.success then
    ({ success := true, item_id := updated.1.item_id }, updated.2)
  else
    ({ success := false, error := some "Failed to update item." }, updated.2)

/-- agents/tool_definitions.py update_user_preferences: reject an empty
update set, otherwise merge through user_manager. -/
def run_update_user_preferences (user_id : String)
    (p : UpdateUserPreferencesParams) (st : SysState) : ToolResult × SysState :=
  if p.name = none ∧ p.timezone = none ∧ p.language = none ∧ p.work_days = none then
    ({ success := false, error := some "No preferences were provided to update." }, st)
  else
    let r := update_user_preferences st user_id (paramsToUpdates p)
    ({ success := r.1 }, r.2)

/-- agents/tool_definitions.py finalize_onboarding: set status active. -/
def run_finalize_onboarding (user_id : String) (_p : FinalizeOnboardingParams)
    (st : SysState) : ToolResult × SysState :=
  let r := update_user_preferences st user_id { status := some "active" }
  ({ success := r.1 }, r.2)

/-! ## The orchestrator (agents/kairo_agent.py handle_user_request) -/

/-- A message of the running transcript sent to the model.  The system
message carries the prompt together with the context snapshot it serializes;
tool entries carry either the structured result or the error payload
(json.dumps of the tool result, respectively of the caught exception text). -/
inductive ToolPayload where
  | result (r : ToolResult)
  | error (e : String)
  deriving DecidableEq, Repr

inductive ChatMsg where
  | system (prompt : String) (ctx : AgentState)
  | user (content : String)
  | assistantText (content : String)
  | assistantToolCalls (calls : List ToolCall)
  | tool (tool_call_id : String) (name : String) (payload : ToolPayload)
  deriving Repr

/-- A tool implementation as seen by the loop: raw argument text and the
state in, either (structured result, state out) or a raised exception text —
the Except error covering both an argument-validation failure
(model_validate_json) and an execution failure. -/
def ToolRegistry : Type :=
  String → Option (String → String → SysState → Except String (ToolResult × SysState))

/-- A way of reading the raw JSON argument text of each tool invocation into
its pydantic parameter model: the model_validate_json step of the loop, with
the error case standing for a raised ValidationError. -/
structure ToolArgsDecoders where
  create_task : String → Except String CreateTaskParams
  create_reminder : String → Except String CreateReminderParams
  update_item : String → Except String UpdateItemParams
  update_user_preferences : String → Except String UpdateUserPreferencesParams
  finalize_onboarding : String → Except String FinalizeOnboardingParams

/-- The AVAILABLE_TOOLS dictionary of agents/tool_definitions.py, keyed by
the five tool names, each entry validating its arguments and running the
tool function. -/
def AVAILABLE_TOOLS (d : ToolArgsDecoders) (now : String) : ToolRegistry :=
  fun name =>
    if name = "create_task" then
      some (fun user_id args st =>
        (d.create_task args).map (fun p => run_create_task now user_id p st))
    else if name = "create_reminder" then
      some (fun user_id args st =>
        (d.create_reminder args).map (fun p => run_create_reminder now user_id p st))
    else if name = "update_item" then
      some (fun user_id args st =>
        (d.update_item args).map (fun p => run_update_item now user_id p st))
    else if name = "update_user_preferences" then
      some (fun user_id args st =>
        (d.update_user_preferences args).map
          (fun p => run_update_user_preferences user_id p st))
    else if name = "finalize_onboarding" then
      some (fun user_id args st =>
        (d.finalize_onboarding args).map
          (fun p => run_finalize_onboarding user_id p st))
    else none

/-- The tool-execution loop of handle_user_request (kairo_agent.py lines
69-81): for each invocation in order, look the tool up by name — an unknown
name is skipped with no transcript entry; run validation and execution — on
success the invocation is audited to llm_activity and its structured result
appended to the transcript, on a caught exception an error payload is
appended instead and the loop continues with the next invocation. -/
def runToolCalls (reg : ToolRegistry) (user_id : String) :
    List ToolCall → List ChatMsg → SysState → List ChatMsg × SysState
  | [], transcript, st => (transcript, st)
  | c :: rest, transcript, st =>
      match reg c.name with
      | none => runToolCalls reg user_id rest transcript st
      | some ex =>
          match ex user_id c.arguments st with
          | .ok res =>
              runToolCalls reg user_id rest
                (transcript ++ [.tool c.id c.name (.result res.1)])
                (log_llm_activity res.2 user_id c.name c.arguments res.1)
          | .error e =>
              runToolCalls reg user_id rest
                (transcript ++ [.tool c.id c.name (.error e)]) st

/-- The first model response: optional text content plus the requested tool
invocations. -/
structure LlmResponse where
  content : Option String
  tool_calls : List ToolCall

/-- The external collaborators of handle_user_request: client availability
(get_instructor_client), the prompt and template stores, and the two model
calls as oracles over the transcript. -/
structure AgentEnv where
  clientAvailable : Bool
  prompts : String → Option String
  templates : String → Option (List (String × String))
  firstCall : List ChatMsg → LlmResponse
  secondCall : List ChatMsg → Option String

/-- The module-level generic fallback message of kairo_agent.py. -/
def GENERIC_ERROR_MSG (env : AgentEnv) : String :=
  dictGet ((env.templates "generic_error_message").getD []) "en"
    "Sorry, an error occurred."

/-- Prompt selection of kairo_agent.py lines 23-27: onboarding prompt for
status new, pending_onboarding or onboarding, the standard prompt
otherwise. -/
def kairo_prompt_key (user_status : String) : String :=
  if user_status = "new" ∨ user_status = "pending_onboarding" ∨ user_status = "onboarding"
  then "kairo_onboarding_system_prompt"
  else "kairo_agent_system_prompt"

/-- A stored history row as it re-enters the model transcript (the source
passes the role and content columns through). -/
def msgRecordToChat (m : MsgRecord) : ChatMsg :=
  if m.role == "user" then .user m.content else .assistantText m.content

/-- Context build of kairo_agent.py lines 34-47: the system message holding
the prompt and the serialized context snapshot, the bounded recent history,
then the current user message when non-empty. -/
def kairo_build_messages (system_prompt : String) (ctx : AgentState)
    (message : String) : List ChatMsg :=
  [.system system_prompt ctx] ++ ctx.conversation_history.map msgRecordToChat ++
    (if message ≠ "" then [.user message] else [])

/-- agents/kairo_agent.py handle_user_request: generic fallback when the
client is unavailable or the status-appropriate prompt is missing; otherwise
build the transcript, make the first model call, audit its raw content, and
either return its text directly (no tool calls) or run the tool loop and
return the second model call made on the transcript extended with the
tool-call message and every tool result. -/
def handle_user_request (env : AgentEnv) (reg : ToolRegistry)
    (user_id message : String) (full_context : AgentState) (st : SysState) :
    Option String × SysState :=
  if env.clientAvailable = false then (some (GENERIC_ERROR_MSG env), st)
  else
    let system_prompt_key := kairo_prompt_key full_context.preferences.status
    if truthyStr (env.prompts system_prompt_key) = false then
      (some (GENERIC_ERROR_MSG env), st)
    else
      let messages_for_api :=
        kairo_build_messages ((env.prompts system_prompt_key).getD "")
          full_context message
      let resp := env.firstCall messages_for_api
      let st1 := add_message_to_user_history st user_id "assistant"
        "agent_raw_response" (resp.content.getD "")
      if resp.tool_calls.isEmpty then (resp.content, st1)
      else
        let transcript := messages_for_api ++ [.assistantToolCalls resp.tool_calls]
        let result := runToolCalls reg user_id resp.tool_calls transcript st1
        (env.secondCall result.1, result.2)

/-- The tool-phase transcript of one turn: the messages built for the first
model call, the tool-call message of the model, then every tool result
appended by the loop.  This is the transcript handed to the second model
call. -/
def kairo_tool_transcript (env : AgentEnv) (reg : ToolRegistry)
    (user_id message : String) (full_context : AgentState) (st : SysState) :
    List ChatMsg :=
  let messages_for_api :=
    kairo_build_messages
      ((env.prompts (kairo_prompt_key full_context.preferences.status)).getD "")
      full_context message
  let resp := env.firstCall messages_for_api
  (runToolCalls reg user_id resp.tool_calls
    (messages_for_api ++ [.assistantToolCalls resp.tool_calls])
    (add_message_to_user_history st user_id "assistant" "agent_raw_response"
      (resp.content.getD ""))).1

/-- Decoders for the witness scenario: create_task accepts two specific
argument texts, update_item always fails validation. -/
def testDecoders : ToolArgsDecoders where
  create_task := fun args =>
    if args = "argsA" then .ok { description := "first task" }
    else if args = "argsC" then .ok { description := "third task" }
    else .error "validation error"
  create_reminder := fun _ => .error "validation error"
  update_item := fun _ => .error "1 validation error for UpdateItemParams"
  update_user_preferences := fun _ => .error "validation error"
  finalize_onboarding := fun _ => .ok {}

/-- First witness invocation: a valid create_task. -/
def callGood1 : ToolCall := { id := "t1", name := "create_task", arguments := "argsA" }

/-- Second witness invocation: an update_item with invalid arguments. -/
def callBad : ToolCall := { id := "t2", name := "update_item", arguments := "nonsense" }

/-- Third witness invocation: another valid create_task. -/
def callGood2 : ToolCall := { id := "t3", name := "create_task", arguments := "argsC" }

/-- A witness invocation whose tool name is not in the registry. -/
def callUnknown : ToolCall := { id := "t4", name := "fetch_weather", arguments := "x" }

/-- A concrete agent turn environment whose first model call requests the
three witness invocations. -/
def testAgentEnv : AgentEnv where
  clientAvailable := true
  prompts := fun _ => some "SYSTEM PROMPT"
  templates := fun _ => some [("en", "Sorry, an error occurred.")]
  firstCall := fun _ => { content := some "raw", tool_calls := [callGood1, callBad, callGood2] }
  secondCall := fun _ => some "final reply"

/-- A concrete active-user context for the witness turn. -/
def activeCtx : AgentState :=
  { user_id := "100", preferences := { status := "active" }, items := [],
    conversation_history := [] }

/-! ## The reminder scan (services/notification_service.py) -/

/-- The NOTIFICATION_TRANSLATIONS lookup combined with the format call: the
reminder_alert template of the language of the user applied to the
description, the unknown-language fallback being the bare description (the
source falls back to the format string holding only the description
placeholder).  The source templates begin with a bell emoji, kept here. -/
def reminder_alert_message (lang description : String) : String :=
  if lang = "en" then "🔔 Reminder: " ++ description
  else if lang = "he" then "🔔 תזכורת: " ++ description
  else description

/-- The inner item loop of check_and_send_reminders for one user, over the
list fetched from the database: skip rows that are not reminders or have no
trigger timestamp; parse the timestamp — a parse failure raises ValueError,
which the per-user except catches, so the REMAINING ROWS OF THIS USER ARE NOT
PROCESSED in this scan (the state reached so far stands); a due reminder
(timestamp at most now plus the one-minute lookahead, in seconds) is notified
through send_message and then marked completed through task_manager.
The parse argument stands for datetime.fromisoformat composed with the
Z-suffix replacement, returning none where the library raises. -/
def scanReminderItems (parse : String → Option Int) (bridgeAvailable : Bool)
    (now : Int) (nowIso lang user_id : String) :
    List Item → SysState → SysState
  | [], st => st
  | item :: rest, st =>
      if item.type ≠ "reminder" ∨ truthyStr item.remind_at = false then
        scanReminderItems parse bridgeAvailable now nowIso lang user_id rest st
      else
        match parse (item.remind_at.getD "") with
        | none => st
        | some remind_at_utc =>
            if remind_at_utc ≤ now + 60 then
              let message := reminder_alert_message lang item.description
              let st1 := send_message bridgeAvailable st user_id message
              let st2 := (task_manager_update_item nowIso user_id item.item_id
                { status := some "completed" } st1).2
              scanReminderItems parse bridgeAvailable now nowIso lang user_id rest st2
            else
              scanReminderItems parse bridgeAvailable now nowIso lang user_id rest st

/-- The per-user body of check_and_send_reminders: skip non-active users,
fetch the status-new rows of the user from the database, and run the item
loop; the surrounding try isolates this user from the others. -/
def process_user_reminders (parse : String → Option Int) (bridgeAvailable : Bool)
    (now : Int) (nowIso user_id : String) (prefs : Prefs) (st : SysState) : SysState :=
  if prefs.status ≠ "active" then st
  else
    let reminders_to_check := list_items_for_user st.items user_id (some ["new"])
    scanReminderItems parse bridgeAvailable now nowIso prefs.language user_id
      reminders_to_check st

/-- services/notification_service.py check_and_send_reminders: iterate over
the snapshot of all user preferences and process each user in turn. -/
def check_and_send_reminders (parse : String → Option Int) (bridgeAvailable : Bool)
    (now : Int) (nowIso : String) (st : SysState) : SysState :=
  st.prefsStore.foldl
    (fun acc kv => process_user_reminders parse bridgeAvailable now nowIso kv.1 kv.2 acc)
    st

/-- A concrete stand-in for datetime.fromisoformat composed with the Z-suffix
replacement: defined on the two well-formed timestamps the closed scenarios
use, raising (none) on anything else, such as the string not-a-timestamp. -/
def testParse : String → Option Int := fun s =>
  if s = "2026-10-12T07:59:00+00:00" then some (-60)
  else if s = "2026-10-12T08:00:00+00:00" then some 0
  else none

/-- A due new reminder of user 200 (created earliest, so scanned last). -/
def dueReminder : Item :=
  { item_id := "r-due", user_id := "200", type := "reminder", status := "new",
    description := "standup", remind_at := some "2026-10-12T07:59:00+00:00",
    created_at := "2026-10-12T07:00:00+00:00",
    updated_at := "2026-10-12T07:00:00+00:00" }

/-- A new reminder of user 200 with an unparseable timestamp, created later
than dueReminder and therefore scanned before it. -/
def badReminder : Item :=
  { item_id := "r-bad", user_id := "200", type := "reminder", status := "new",
    description := "broken", remind_at := some "not-a-timestamp",
    created_at := "2026-10-12T07:30:00+00:00",
    updated_at := "2026-10-12T07:30:00+00:00" }

/-- A state in which the unparseable reminder of user 200 is scanned before
the due one. -/
def blockedScanState : SysState :=
  { prefsStore := [("200", { status := "active", timezone := some "UTC" })],
    items := [dueReminder, badReminder] }

/-- A due new reminder of user 300 who owns nothing else. -/
def soloReminder : Item :=
  { item_id := "r-solo", user_id := "300", type := "reminder", status := "new",
    description := "water plants", remind_at := some "2026-10-12T07:59:00+00:00",
    created_at := "2026-10-12T06:00:00+00:00",
    updated_at := "2026-10-12T06:00:00+00:00" }

/-- A single-user state holding only the solo due reminder. -/
def soloScanState : SysState :=
  { prefsStore := [("300", { status := "active", timezone := some "UTC" })],
    items := [soloReminder] }

/-- A due new reminder of user 400 (scanned after the unparseable one). -/
def dueReminder4 : Item :=
  { item_id := "r-due4", user_id := "400", type := "reminder", status := "new",
    description := "call home", remind_at := some "2026-10-12T07:59:00+00:00",
    created_at := "2026-10-12T05:00:00+00:00",
    updated_at := "2026-10-12T05:00:00+00:00" }

/-- A new reminder of user 400 with an unparseable timestamp, scanned
first. -/
def badReminder4 : Item :=
  { item_id := "r-bad4", user_id := "400", type := "reminder", status := "new",
    description := "broken again", remind_at := some "not-a-timestamp",
    created_at := "2026-10-12T05:30:00+00:00",
    updated_at := "2026-10-12T05:30:00+00:00" }

/-- A single-user state for user 400 with the unparseable reminder scanned
before the due one. -/
def blockedScanState4 : SysState :=
  { prefsStore := [("400", { status := "active", timezone := some "UTC" })],
    items := [dueReminder4, badReminder4] }

/-- An unparseable new reminder of user 600. -/
def badReminder6 : Item :=
  { item_id := "r-bad6", user_id := "600", type := "reminder", status := "new",
    description := "still broken", remind_at := some "not-a-timestamp",
    created_at := "2026-10-12T04:00:00+00:00",
    updated_at := "2026-10-12T04:00:00+00:00" }

/-- A due new reminder of user 700. -/
def dueReminder7 : Item :=
  { item_id := "r-due7", user_id := "700", type := "reminder", status := "new",
    description := "send report", remind_at := some "2026-10-12T07:59:00+00:00",
    created_at := "2026-10-12T04:30:00+00:00",
    updated_at := "2026-10-12T04:30:00+00:00" }

/-- A two-user state: user 600 (processed first) aborts on a parse failure,
user 700 owns a due reminder. -/
def twoUserScanState : SysState :=
  { prefsStore := [("600", { status := "active", timezone := some "UTC" }),
                   ("700", { status := "active", timezone := some "UTC" })],
    items := [badReminder6, dueReminder7] }

end Kairo

namespace Kairo

/-! ## Theorems -/

/-- C3: after drain returns the snapshot [A, B] without modifying the queue,
acknowledging the delivery id of A removes exactly that entry and reports
removed = true, so a subsequent drain returns exactly [B]; acknowledging an id
present in no entry reports removed = false and leaves the queue unchanged.
Both the CLI and the WhatsApp ack endpoints satisfy the contract. -/
theorem drain_ack_contract (A B : QEntry) (q : List QEntry) (mid : String)
    (hAB : A.message_id ≠ B.message_id)
    (hq : ∀ m ∈ q, m.message_id ≠ mid) :
    get_outgoing_cli_messages [A, B] = [A, B] ∧
    acknowledge_cli_message A.message_id [A, B] = ([B], true) ∧
    acknowledge_cli_message mid q = (q, false) ∧
    acknowledge_whatsapp_message A.message_id [A, B] = ([B], true) := by
  have hBA : (B.message_id != A.message_id) = true := by
    simpa [bne_iff_ne] using Ne.symm hAB
  refine ⟨rfl, ?_, ?_, ?_⟩
  · simp [acknowledge_cli_message, List.filter, hBA]
  · have hfilter : q.filter (fun m => m.message_id != mid) = q := by
      apply List.filter_eq_self.mpr
      intro m hm
      simpa using hq m hm
    simp [acknowledge_cli_message, hfilter]
  · simp [acknowledge_whatsapp_message, List.filter, hBA]

/-- Witness for C3 at concrete queue entries. -/
theorem drain_ack_contract_witness :
    get_outgoing_cli_messages
        [⟨"111", "hello", "id-a"⟩, ⟨"222", "bye", "id-b"⟩] =
      [⟨"111", "hello", "id-a"⟩, ⟨"222", "bye", "id-b"⟩] ∧
    acknowledge_cli_message "id-a"
        [⟨"111", "hello", "id-a"⟩, ⟨"222", "bye", "id-b"⟩] =
      ([⟨"222", "bye", "id-b"⟩], true) ∧
    acknowledge_cli_message "id-z" [⟨"111", "hello", "id-a"⟩] =
      ([⟨"111", "hello", "id-a"⟩], false) ∧
    acknowledge_whatsapp_message "id-a"
        [⟨"111", "hello", "id-a"⟩, ⟨"222", "bye", "id-b"⟩] =
      ([⟨"222", "bye", "id-b"⟩], true) := by
  have h := drain_ack_contract ⟨"111", "hello", "id-a"⟩ ⟨"222", "bye", "id-b"⟩
    [⟨"111", "hello", "id-a"⟩] "id-z" (by decide) (by decide)
  exact ⟨h.1, h.2.1, h.2.2.1, h.2.2.2⟩

/-- An item whose due date lies strictly in the past relative to the current
UTC date, used to exhibit that get_agent applies no due-date filter. -/
def overdueItem : Item :=
  { item_id := "i1", user_id := "100", type := "task", status := "new",
    description := "overdue task", due_date := some "2020-01-01",
    created_at := "2026-01-01T00:00:00+00:00",
    updated_at := "2026-01-01T00:00:00+00:00" }

/-- C8 counterexample: the claim says active_items excludes items whose due
date is strictly in the past relative to the current UTC date.  The code
filters by status only: an item with status new and due date 2020-01-01 is
returned by get_agent even when the current UTC date is 2026-10-12. -/
theorem active_items_due_date_counterexample :
    overdueItem ∈ (get_agent { items := [overdueItem] } "100").1.items ∧
      overdueItem.due_date = some "2020-01-01" ∧
      ("2020-01-01" : String) < "2026-10-12" := by
  refine ⟨?_, rfl, ?_⟩
  · decide
  · rw [String.lt_iff_toList_lt]
    decide

/-- C8 amended: the active_items list returned by get_agent contains exactly
the items owned by the user whose status is new or in_progress; the due date
plays no role in the filter (get_agent passes only a status filter to
list_items_for_user). -/
theorem get_agent_active_items_mem (st : SysState) (uid : String) (it : Item) :
    it ∈ (get_agent st uid).1.items ↔
      it ∈ st.items ∧ it.user_id = uid ∧
        (it.status = "new" ∨ it.status = "in_progress") := by
  show it ∈ list_items_for_user st.items uid (some ["new", "in_progress"]) ↔ _
  unfold list_items_for_user
  simp only [List.mem_insertionSort, List.mem_filter, Bool.and_eq_true, beq_iff_eq]
  constructor
  · rintro ⟨hmem, huid, hstat⟩
    refine ⟨hmem, huid, ?_⟩
    simpa [List.contains, List.elem_iff] using hstat
  · rintro ⟨hmem, huid, hstat⟩
    refine ⟨hmem, huid, ?_⟩
    simpa [List.contains, List.elem_iff] using hstat

/-- C10: for a non-empty recipient and non-empty body, send_message appends
exactly one assistant audit record to the conversation history before any
delivery attempt — also when the bridge is unavailable, in which case nothing
is queued but the audit record remains; with an empty recipient or body it is
a silent no-op that neither audits nor queues. -/
theorem send_message_audit_contract (b : Bool) (st : SysState) (uid body : String) :
    (uid ≠ "" → body ≠ "" →
      (send_message b st uid body).messages
          = st.messages ++ [⟨uid, "assistant", "agent_text_response", body⟩] ∧
      (b = false → (send_message b st uid body).queue = st.queue) ∧
      (b = true → (send_message b st uid body).queue
          = st.queue ++ [⟨uid, body, freshUuid st.uuidCounter⟩])) ∧
    ((uid = "" ∨ body = "") → send_message b st uid body = st) := by
  constructor
  · intro h1 h2
    refine ⟨?_, ?_, ?_⟩
    · cases b <;>
        simp [send_message, add_message_to_user_history, bridge_send_message, h1, h2]
    · rintro rfl
      simp [send_message, add_message_to_user_history, h1, h2]
    · rintro rfl
      simp [send_message, add_message_to_user_history, bridge_send_message, h1, h2]
  · intro h
    simp [send_message, h]

/-- Witness for C10 at concrete inputs, covering both the unavailable-bridge
path and the empty-input no-op path. -/
theorem send_message_audit_contract_witness :
    (send_message false {} "100" "hi").messages
        = [⟨"100", "assistant", "agent_text_response", "hi"⟩] ∧
    (send_message false {} "100" "hi").queue = [] ∧
    send_message true {} "" "hi" = {} := by
  have h1 := send_message_audit_contract false {} "100" "hi"
  have h2 := send_message_audit_contract true {} "" "hi"
  refine ⟨?_, ?_, h2.2 (Or.inl rfl)⟩
  · simpa using (h1.1 (by decide) (by decide)).1
  · simpa using (h1.1 (by decide) (by decide)).2.1 rfl

theorem statusRank_le_two (s : String) : statusRank s ≤ 2 := by
  unfold statusRank
  split
  · omega
  · split <;> omega

theorem applyPublicOp_status_monotone (op : PublicOp) (prefs : Prefs) :
    statusRank prefs.status ≤ statusRank (applyPublicOp op prefs).status ∧
      (prefs.status = "active" → (applyPublicOp op prefs).status = "active") := by
  cases op with
  | inboundMessage =>
      by_cases h : prefs.status = "new"
      · simp [applyPublicOp, h, applyPrefUpdates, statusRank]
      · simp [applyPublicOp, h]
  | toolUpdatePreferences p =>
      simp only [applyPublicOp, tool_update_user_preferences]
      split
      · exact ⟨le_refl _, fun h => h⟩
      · simp [applyPrefUpdates, paramsToUpdates]
  | toolFinalizeOnboarding =>
      refine ⟨?_, fun _ => ?_⟩
      · simpa [applyPublicOp, tool_finalize_onboarding, applyPrefUpdates, statusRank]
          using statusRank_le_two prefs.status
      · simp [applyPublicOp, tool_finalize_onboarding, applyPrefUpdates]
  | itemWrite => exact ⟨le_refl _, fun h => h⟩
  | schedulerMorningMark d =>
      simp [applyPublicOp, applyPrefUpdates]
  | schedulerEveningMark d =>
      simp [applyPublicOp, applyPrefUpdates]

theorem applyPublicOps_status_monotone (ops : List PublicOp) (prefs : Prefs) :
    statusRank prefs.status ≤ statusRank (applyPublicOps ops prefs).status ∧
      (prefs.status = "active" → (applyPublicOps ops prefs).status = "active") := by
  induction ops generalizing prefs with
  | nil => exact ⟨le_refl _, fun h => h⟩
  | cons op rest ih =>
      have h1 := applyPublicOp_status_monotone op prefs
      have h2 := ih (applyPublicOp op prefs)
      exact ⟨le_trans h1.1 h2.1, fun h => h2.2 (h1.2 h)⟩

/-- C9: along every sequence of operations available at the public interface,
the onboarding status of a user only moves forward in the order
new → onboarding → active (its rank never decreases across any suffix of
operations), and once the status is active it never observably regresses to
onboarding or new. -/
theorem status_monotonicity (ops₁ ops₂ : List PublicOp) (prefs : Prefs) :
    statusRank (applyPublicOps ops₁ prefs).status ≤
        statusRank (applyPublicOps (ops₁ ++ ops₂) prefs).status ∧
      ((applyPublicOps ops₁ prefs).status = "active" →
        (applyPublicOps (ops₁ ++ ops₂) prefs).status = "active") := by
  have hsplit : applyPublicOps (ops₁ ++ ops₂) prefs
      = applyPublicOps ops₂ (applyPublicOps ops₁ prefs) := by
    simp [applyPublicOps, List.foldl_append]
  rw [hsplit]
  exact applyPublicOps_status_monotone ops₂ (applyPublicOps ops₁ prefs)

/-- Witness for C9: a concrete trace reaching active and a suffix containing
every kind of public operation, after which the status is still active. -/
theorem status_monotonicity_witness :
    statusRank (applyPublicOps [.inboundMessage, .toolFinalizeOnboarding] {}).status ≤
        statusRank (applyPublicOps ([.inboundMessage, .toolFinalizeOnboarding] ++
          [.toolUpdatePreferences { timezone := some "UTC" }, .itemWrite,
           .schedulerMorningMark "2026-10-12", .schedulerEveningMark "2026-10-12",
           .inboundMessage]) {}).status ∧
      (applyPublicOps ([.inboundMessage, .toolFinalizeOnboarding] ++
          [.toolUpdatePreferences { timezone := some "UTC" }, .itemWrite,
           .schedulerMorningMark "2026-10-12", .schedulerEveningMark "2026-10-12",
           .inboundMessage]) {}).status = "active" := by
  have h := status_monotonicity [.inboundMessage, .toolFinalizeOnboarding]
    [.toolUpdatePreferences { timezone := some "UTC" }, .itemWrite,
     .schedulerMorningMark "2026-10-12", .schedulerEveningMark "2026-10-12",
     .inboundMessage] {}
  exact ⟨h.1, h.2 (by decide)⟩

/-- C1 (code defect): the WhatsApp background task passes three positional
arguments to the two-parameter handle_incoming_message, so every submission —
first or duplicate — raises TypeError, is caught and logged, and is dropped
before any processing: after submitting the same (user id, message id) pair
twice, the audit log holds zero user entries (the claim requires exactly
one), nothing is queued, and two background-task errors are logged.  No
idempotency cache exists anywhere in the source. -/
theorem whatsapp_dedup_code_bug :
    (whatsapp_router_call_args "123" "hi" (some "m1")).length
        ≠ handle_incoming_message_params.length ∧
    ((process_incoming_message_background testEnv true "2026-10-12" "123" "hi"
        (some "m1")
        (process_incoming_message_background testEnv true "2026-10-12" "123" "hi"
          (some "m1") {})).messages.filter (fun m => m.role == "user")).length = 0 ∧
    (process_incoming_message_background testEnv true "2026-10-12" "123" "hi"
        (some "m1")
        (process_incoming_message_background testEnv true "2026-10-12" "123" "hi"
          (some "m1") {})).queue = [] ∧
    (process_incoming_message_background testEnv true "2026-10-12" "123" "hi"
        (some "m1")
        (process_incoming_message_background testEnv true "2026-10-12" "123" "hi"
          (some "m1") {})).errors = 2 := by
  refine ⟨by decide, ?_, ?_, ?_⟩ <;>
    simp [process_incoming_message_background, whatsapp_router_call_args,
      handle_incoming_message_params]

theorem kwargs_mismatch :
    kwargsAccepted handle_user_request_params router_agent_call_kwargs = false := by
  decide

theorem get_agent_snd_messages (st : SysState) (u : String) :
    (get_agent st u).2.messages = st.messages := by
  unfold get_agent
  cases storeFind st.prefsStore u <;> rfl

/-- C4 (code defect): the router passes the keyword argument system_prompt to
handle_user_request, whose signature does not accept it, so for every
non-command message of a user whose status is not new the invocation raises
TypeError inside the try block and the router sends the generic fallback
message instead of the agent reply; the agent oracle is never consulted (the
routed outcome is identical under any two oracles). -/
theorem router_agent_invocation_code_bug (env : RouterEnv) (b : Bool)
    (today uid msg : String) (st : SysState)
    (f g : String → String → AgentState → String → Option String)
    (hnorm : normalize_user_id uid ≠ "")
    (hcmd : pyStartsWithSlash (pyStrip msg) = false)
    (hstatus : (get_agent (add_message_to_user_history st (normalize_user_id uid)
        "user" "user_text" msg) (normalize_user_id uid)).1.preferences.status ≠ "new")
    (hprompt : ∀ k, truthyStr (env.prompts k) = true)
    (herr : GENERIC_ERROR_MSG_ROUTER env ≠ "") :
    (handle_incoming_message env b today uid msg st).messages
        = st.messages ++ [⟨normalize_user_id uid, "user", "user_text", msg⟩,
            ⟨normalize_user_id uid, "assistant", "agent_text_response",
              GENERIC_ERROR_MSG_ROUTER env⟩] ∧
    handle_incoming_message { env with agentReply := f } b today uid msg st
        = handle_incoming_message { env with agentReply := g } b today uid msg st := by
  constructor
  · unfold handle_incoming_message
    rw [if_neg hnorm, if_neg (by simp [hcmd])]
    simp only [hstatus, if_false, hprompt, kwargs_mismatch, Bool.true_eq_false,
      Bool.false_eq_true, if_true, if_false]
    unfold send_message
    cases b <;>
      simp [add_message_to_user_history, bridge_send_message, get_agent_snd_messages,
        hnorm, herr]
  · unfold handle_incoming_message handle_internal_system_event
    simp [kwargs_mismatch, GENERIC_ERROR_MSG_ROUTER]

/-- Witness for C4: a concrete onboarding user sending hello receives exactly
the generic fallback, and changing the agent oracle changes nothing. -/
theorem router_agent_invocation_code_bug_witness :
    (handle_incoming_message testEnv true "2026-10-12" "15551234567" "hello"
        onboardingState).messages
      = onboardingState.messages ++
          [⟨"15551234567", "user", "user_text", "hello"⟩,
           ⟨"15551234567", "assistant", "agent_text_response",
             GENERIC_ERROR_MSG_ROUTER testEnv⟩] ∧
    handle_incoming_message { testEnv with agentReply := fun _ _ _ _ => some "A" }
        true "2026-10-12" "15551234567" "hello" onboardingState
      = handle_incoming_message { testEnv with agentReply := fun _ _ _ _ => none }
        true "2026-10-12" "15551234567" "hello" onboardingState := by
  have h := router_agent_invocation_code_bug testEnv true "2026-10-12"
    "15551234567" "hello" onboardingState
    (fun _ _ _ _ => some "A") (fun _ _ _ _ => none)
    (by decide) (by decide) (by decide) (fun k => rfl) (by decide)
  exact ⟨h.1, h.2⟩

theorem ritual_tick_preserves (p : Prefs) (n : LocalNow) :
    ((check_and_trigger_routines_user p n).2).status = p.status ∧
    ((check_and_trigger_routines_user p n).2).timezone = p.timezone ∧
    ((check_and_trigger_routines_user p n).2).morning_muster_time = p.morning_muster_time ∧
    ((check_and_trigger_routines_user p n).2).evening_reflection_time = p.evening_reflection_time ∧
    ((check_and_trigger_routines_user p n).2).ritual_days = p.ritual_days ∧
    ((check_and_trigger_routines_user p n).2).work_days = p.work_days := by
  simp only [check_and_trigger_routines_user]
  split_ifs <;> simp [applyPrefUpdates]

theorem ritual_tick_fires_morning (p : Prefs) (n : LocalNow)
    (hstatus : p.status = "active") (htz : truthyStr p.timezone = true)
    (hday : (p.ritual_days.getD p.work_days).contains n.weekday = true)
    (hmt : truthyStr p.morning_muster_time = true)
    (hmatch : n.hm = p.morning_muster_time.getD "")
    (hfresh : p.last_morning_trigger_date ≠ n.dateStr) :
    (check_and_trigger_routines_user p n).1.count "morning_muster" = 1 ∧
    ((check_and_trigger_routines_user p n).2).last_morning_trigger_date = n.dateStr := by
  simp only [check_and_trigger_routines_user]
  rw [if_neg (by simp [hstatus, htz])]
  rw [if_neg (by simp only [hday, Bool.true_eq_false]; exact fun h => h)]
  have hfire : (truthyStr p.morning_muster_time &&
      n.hm == p.morning_muster_time.getD "" &&
      p.last_morning_trigger_date != n.dateStr) = true := by
    simp [hmt, hmatch, bne_iff_ne, hfresh]
  rw [hfire]
  simp only [if_true]
  constructor
  · by_cases hev : (truthyStr p.evening_reflection_time &&
        n.hm == p.evening_reflection_time.getD "" &&
        p.last_evening_trigger_date != n.dateStr) = true
    · rw [hev]
      simp [List.count_append, List.count_cons]
    · rw [Bool.not_eq_true] at hev
      rw [hev]
      simp [List.count_append, List.count_cons]
  · by_cases hev : (truthyStr p.evening_reflection_time &&
        n.hm == p.evening_reflection_time.getD "" &&
        p.last_evening_trigger_date != n.dateStr) = true
    · rw [hev]
      simp [applyPrefUpdates]
    · rw [Bool.not_eq_true] at hev
      rw [hev]
      simp [applyPrefUpdates]

theorem ritual_tick_skips_morning (p : Prefs) (n : LocalNow)
    (hdone : p.last_morning_trigger_date = n.dateStr) :
    (check_and_trigger_routines_user p n).1.count "morning_muster" = 0 ∧
    ((check_and_trigger_routines_user p n).2).last_morning_trigger_date
        = p.last_morning_trigger_date := by
  simp only [check_and_trigger_routines_user]
  have hfire : (truthyStr p.morning_muster_time &&
      n.hm == p.morning_muster_time.getD "" &&
      p.last_morning_trigger_date != n.dateStr) = false := by
    simp [hdone]
  split_ifs with h1 h2 <;>
    simp_all [hfire, applyPrefUpdates, List.count_append, List.count_cons]

/-- C5 counterexample: the claim, as stated, requires the morning trigger to
fire exactly once for every active user with a timezone whose local time
matches the configured morning time on two same-date consecutive ticks.  For
a user whose allowed ritual days (work_days by default) do not contain the
local weekday — here a Friday with the default Sunday-to-Thursday work days —
both ticks raise no event at all, although every condition of the claim
holds. -/
theorem ritual_once_per_day_counterexample :
    activeDefaultDaysPrefs.status = "active" ∧
    truthyStr activeDefaultDaysPrefs.timezone = true ∧
    fridayMorningNow.hm = activeDefaultDaysPrefs.morning_muster_time.getD "" ∧
    (check_and_trigger_routines_user activeDefaultDaysPrefs fridayMorningNow).1 = [] ∧
    (check_and_trigger_routines_user
        (check_and_trigger_routines_user activeDefaultDaysPrefs fridayMorningNow).2
        fridayMorningNow).1 = [] := by
  decide

/-- C5 amended: for an active user with a timezone, provided additionally
that the local weekday lies in the allowed ritual days, a tick at the
configured morning time raises the morning trigger exactly once and records
the local date as last_morning_trigger_date, a second tick on the same local
date raises no morning trigger, and a later tick on a different (eligible)
local date at the morning time fires again. -/
theorem ritual_once_per_day (p : Prefs) (n₁ n₂ n₃ : LocalNow)
    (hstatus : p.status = "active") (htz : truthyStr p.timezone = true)
    (hday1 : (p.ritual_days.getD p.work_days).contains n₁.weekday = true)
    (hmt : truthyStr p.morning_muster_time = true)
    (hmatch1 : n₁.hm = p.morning_muster_time.getD "")
    (hfresh : p.last_morning_trigger_date ≠ n₁.dateStr)
    (hsame : n₂.dateStr = n₁.dateStr)
    (hday3 : (p.ritual_days.getD p.work_days).contains n₃.weekday = true)
    (hmatch3 : n₃.hm = p.morning_muster_time.getD "")
    (hroll : n₃.dateStr ≠ n₁.dateStr) :
    (check_and_trigger_routines_user p n₁).1.count "morning_muster" = 1 ∧
    (check_and_trigger_routines_user
        (check_and_trigger_routines_user p n₁).2 n₂).1.count "morning_muster" = 0 ∧
    (check_and_trigger_routines_user
        (check_and_trigger_routines_user
          (check_and_trigger_routines_user p n₁).2 n₂).2 n₃).1.count
        "morning_muster" = 1 := by
  have hpres1 := ritual_tick_preserves p n₁
  have h1 := ritual_tick_fires_morning p n₁ hstatus htz hday1 hmt hmatch1 hfresh
  have hdone2 : ((check_and_trigger_routines_user p n₁).2).last_morning_trigger_date
      = n₂.dateStr := by rw [h1.2, hsame]
  have h2 := ritual_tick_skips_morning (check_and_trigger_routines_user p n₁).2
    n₂ hdone2
  have hpres2 := ritual_tick_preserves (check_and_trigger_routines_user p n₁).2 n₂
  have h3 := ritual_tick_fires_morning
    (check_and_trigger_routines_user
      (check_and_trigger_routines_user p n₁).2 n₂).2 n₃
    (by rw [hpres2.1, hpres1.1, hstatus])
    (by rw [hpres2.2.1, hpres1.2.1]; exact htz)
    (by rw [hpres2.2.2.2.2.1, hpres1.2.2.2.2.1, hpres2.2.2.2.2.2, hpres1.2.2.2.2.2]
        exact hday3)
    (by rw [hpres2.2.2.1, hpres1.2.2.1]; exact hmt)
    (by rw [hpres2.2.2.1, hpres1.2.2.1]; exact hmatch3)
    (by rw [h2.2, h1.2]; exact Ne.symm hroll)
  exact ⟨h1.1, h2.1, h3.1⟩

/-- Witness for C5 at a concrete user: morning 08:00 Monday ticks twice on
2026-10-12, fires once; an 08:00 tick on Tuesday 2026-10-13 fires again. -/
theorem ritual_once_per_day_witness :
    (check_and_trigger_routines_user activeDefaultDaysPrefs
        ⟨"Monday", "08:00", "2026-10-12"⟩).1.count "morning_muster" = 1 ∧
    (check_and_trigger_routines_user
        (check_and_trigger_routines_user activeDefaultDaysPrefs
          ⟨"Monday", "08:00", "2026-10-12"⟩).2
        ⟨"Monday", "08:00", "2026-10-12"⟩).1.count "morning_muster" = 0 ∧
    (check_and_trigger_routines_user
        (check_and_trigger_routines_user
          (check_and_trigger_routines_user activeDefaultDaysPrefs
            ⟨"Monday", "08:00", "2026-10-12"⟩).2
          ⟨"Monday", "08:00", "2026-10-12"⟩).2
        ⟨"Tuesday", "08:00", "2026-10-13"⟩).1.count "morning_muster" = 1 := by
  exact ritual_once_per_day activeDefaultDaysPrefs
    ⟨"Monday", "08:00", "2026-10-12"⟩ ⟨"Monday", "08:00", "2026-10-12"⟩
    ⟨"Tuesday", "08:00", "2026-10-13"⟩
    (by decide) (by decide) (by decide) (by decide) (by decide) (by decide)
    (by decide) (by decide) (by decide) (by decide)

theorem runToolCalls_append (reg : ToolRegistry) (uid : String)
    (l₁ l₂ : List ToolCall) (t : List ChatMsg) (st : SysState) :
    runToolCalls reg uid (l₁ ++ l₂) t st
      = runToolCalls reg uid l₂ (runToolCalls reg uid l₁ t st).1
          (runToolCalls reg uid l₁ t st).2 := by
  induction l₁ generalizing t st with
  | nil => rfl
  | cons c rest ih =>
      cases hreg : reg c.name with
      | none =>
          simp only [List.cons_append, runToolCalls, hreg]
          exact ih t st
      | some ex =>
          cases hex : ex uid c.arguments st with
          | ok res =>
              simp only [List.cons_append, runToolCalls, hreg, hex]
              exact ih _ _
          | error e =>
              simp only [List.cons_append, runToolCalls, hreg, hex]
              exact ih _ _

/-- C2: the tool loop processes invocations in order with per-tool failure
isolation.  (i) An invocation whose name is not in the registry is removed
from the run with no transcript entry and no state effect.  (ii) When an
invocation with a known name fails (validation or execution) at the point it
executes, exactly one tool entry carrying the error payload is appended to
the transcript, the state is unchanged by it, and the remaining invocations
run exactly as they otherwise would.  (iii) Whenever the first model call
returns a non-empty invocation list, the reply of the turn is the output of
the second model call made on the transcript extended with all tool
results. -/
theorem tool_isolation (reg : ToolRegistry) (uid : String)
    (pre post : List ToolCall) (c : ToolCall) (t : List ChatMsg) (st : SysState) :
    (reg c.name = none →
      runToolCalls reg uid (pre ++ c :: post) t st
        = runToolCalls reg uid (pre ++ post) t st) ∧
    (∀ ex e, reg c.name = some ex →
      ex uid c.arguments (runToolCalls reg uid pre t st).2 = .error e →
      runToolCalls reg uid (pre ++ c :: post) t st
        = runToolCalls reg uid post
            ((runToolCalls reg uid pre t st).1 ++ [.tool c.id c.name (.error e)])
            (runToolCalls reg uid pre t st).2) ∧
    (∀ (env : AgentEnv) (msg : String) (ctx : AgentState),
      env.clientAvailable = true →
      truthyStr (env.prompts (kairo_prompt_key ctx.preferences.status)) = true →
      (env.firstCall (kairo_build_messages
          ((env.prompts (kairo_prompt_key ctx.preferences.status)).getD "")
          ctx msg)).tool_calls = pre ++ c :: post →
      (handle_user_request env reg uid msg ctx st).1
        = env.secondCall (kairo_tool_transcript env reg uid msg ctx st)) := by
  refine ⟨?_, ?_, ?_⟩
  · intro hnone
    rw [runToolCalls_append, runToolCalls_append]
    simp only [runToolCalls, hnone]
  · intro ex e hsome hfail
    rw [runToolCalls_append]
    simp only [runToolCalls, hsome, hfail]
  · intro env msg ctx hclient hprompt hcalls
    unfold handle_user_request kairo_tool_transcript
    rw [if_neg (by simp [hclient])]
    rw [if_neg (by simp [hprompt])]
    simp only [hcalls]
    rw [if_neg (by simp)]

/-- Witness for C2: in the concrete three-invocation scenario (valid
create_task, update_item with invalid arguments, valid create_task), the run
with the failing second invocation equals the run that records its error
payload and then executes the rest from the untouched state; an unknown tool
name disappears from the run; and the turn reply is the second model call
output. -/
theorem tool_isolation_witness :
    runToolCalls (AVAILABLE_TOOLS testDecoders "T0") "100"
        ([callGood1] ++ callBad :: [callGood2]) [] {}
      = runToolCalls (AVAILABLE_TOOLS testDecoders "T0") "100" [callGood2]
          ((runToolCalls (AVAILABLE_TOOLS testDecoders "T0") "100" [callGood1] [] {}).1
            ++ [.tool "t2" "update_item"
                  (.error "1 validation error for UpdateItemParams")])
          (runToolCalls (AVAILABLE_TOOLS testDecoders "T0") "100" [callGood1] [] {}).2 ∧
    runToolCalls (AVAILABLE_TOOLS testDecoders "T0") "100"
        ([callGood1] ++ callUnknown :: [callGood2]) [] {}
      = runToolCalls (AVAILABLE_TOOLS testDecoders "T0") "100"
          ([callGood1] ++ [callGood2]) [] {} ∧
    (handle_user_request testAgentEnv (AVAILABLE_TOOLS testDecoders "T0")
        "100" "please do three things" activeCtx {}).1 = some "final reply" := by
  refine ⟨?_, ?_, ?_⟩
  · exact (tool_isolation (AVAILABLE_TOOLS testDecoders "T0") "100"
      [callGood1] [callGood2] callBad [] {}).2.1
      (fun user_id args st =>
        (testDecoders.update_item args).map (fun p => run_update_item "T0" user_id p st))
      "1 validation error for UpdateItemParams" rfl rfl
  · exact (tool_isolation (AVAILABLE_TOOLS testDecoders "T0") "100"
      [callGood1] [callGood2] callUnknown [] {}).1 rfl
  · exact (tool_isolation (AVAILABLE_TOOLS testDecoders "T0") "100"
      [callGood1] [callGood2] callBad [] {}).2.2 testAgentEnv
      "please do three things" activeCtx rfl rfl rfl

theorem mem_list_items_for_user {items : List Item} {uid : String}
    {fs : List String} {it : Item} :
    it ∈ list_items_for_user items uid (some fs) ↔
      it ∈ items ∧ it.user_id = uid ∧ it.status ∈ fs := by
  unfold list_items_for_user
  simp only [List.mem_insertionSort, List.mem_filter, Bool.and_eq_true, beq_iff_eq]
  constructor
  · rintro ⟨h1, h2, h3⟩
    exact ⟨h1, h2, by simpa [List.contains, List.elem_iff] using h3⟩
  · rintro ⟨h1, h2, h3⟩
    exact ⟨h1, h2, by simpa [List.contains, List.elem_iff] using h3⟩

theorem filter_nil_map_id {α : Type} (p : α → Bool) (b : α) : ∀ (l : List α),
    l.filter p = [] → l.map (fun x => if p x then b else x) = l := by
  intro l
  induction l with
  | nil => intro _; rfl
  | cons x xs ih =>
      intro h
      cases hx : p x with
      | true => simp [List.filter_cons, hx] at h
      | false =>
          rw [List.filter_cons, if_neg (by simp [hx])] at h
          simp [hx, ih h]

theorem filter_map_if_singleton {α : Type} (p : α → Bool) (b : α)
    (hb : p b = true) : ∀ (l : List α) (a : α),
    l.filter p = [a] →
    (l.map (fun x => if p x then b else x)).filter p = [b] := by
  intro l
  induction l with
  | nil => intro a h; simp at h
  | cons x xs ih =>
      intro a h
      cases hx : p x with
      | true =>
          rw [List.filter_cons, if_pos (by simp [hx])] at h
          have hx2 : x = a ∧ xs.filter p = [] := by
            constructor
            · exact (List.cons_eq_cons.mp h).1
            · exact (List.cons_eq_cons.mp h).2
          rw [List.map_cons, if_pos (by simp [hx]), List.filter_cons,
            if_pos (by simp [hb]), filter_nil_map_id p b xs hx2.2,
            List.filter_eq_nil_iff.mpr ?_]
          · intro y hy
            have := List.filter_eq_nil_iff.mp hx2.2 y hy
            simpa using this
      | false =>
          rw [List.filter_cons, if_neg (by simp [hx])] at h
          rw [List.map_cons, if_neg (by simp [hx]), List.filter_cons,
            if_neg (by simp [hx])]
          exact ih a h

theorem filter_map_if_other {α : Type} (p q : α → Bool) (b : α)
    (hdisj : ∀ x, q x = true → p x = false) (hb : p b = false) : ∀ (l : List α),
    (l.map (fun x => if q x then b else x)).filter p = l.filter p := by
  intro l
  induction l with
  | nil => rfl
  | cons x xs ih =>
      cases hqx : q x with
      | true =>
          have hpx := hdisj x hqx
          rw [List.map_cons, if_pos (by simp [hqx]), List.filter_cons,
            if_neg (by simp [hb]), List.filter_cons, if_neg (by simp [hpx])]
          exact ih
      | false =>
          rw [List.map_cons, if_neg (by simp [hqx]), List.filter_cons,
            List.filter_cons]
          cases hpx : p x with
          | true => rw [if_pos (by simp [hpx]), if_pos (by simp [hpx]), ih]
          | false => rw [if_neg (by simp [hpx]), if_neg (by simp [hpx]), ih]

theorem find?_of_filter_singleton {α : Type} (p : α → Bool) : ∀ (l : List α) (a : α),
    l.filter p = [a] → l.find? p = some a := by
  intro l
  induction l with
  | nil => intro a h; simp at h
  | cons x xs ih =>
      intro a h
      cases hx : p x with
      | true =>
          rw [List.filter_cons, if_pos (by simp [hx])] at h
          rw [List.find?_cons_of_pos _ hx]
          exact congrArg some (List.cons_eq_cons.mp h).1
      | false =>
          rw [List.filter_cons, if_neg (by simp [hx])] at h
          rw [List.find?_cons_of_neg _ (by simp [hx])]
          exact ih a h

theorem update_item_state_eq (now uid tid : String) (u : ItemUpdates) (st : SysState) :
    ((task_manager_update_item now uid tid u st).2).queue = st.queue ∧
    ((task_manager_update_item now uid tid u st).2).messages = st.messages ∧
    ((task_manager_update_item now uid tid u st).2).prefsStore = st.prefsStore := by
  unfold task_manager_update_item
  cases get_item st.items tid with
  | none => exact ⟨rfl, rfl, rfl⟩
  | some existing =>
      dsimp only
      split_ifs <;> exact ⟨rfl, rfl, rfl⟩

theorem add_or_update_filter_other (items : List Item) (it : Item) (oid : String)
    (hne : it.item_id ≠ oid) :
    (add_or_update_item items it).2.filter (fun x => x.item_id == oid)
      = items.filter (fun x => x.item_id == oid) := by
  unfold add_or_update_item
  split_ifs with h1 h2 h3
  · rfl
  · exact filter_map_if_other _ _ _
      (fun x hx => by
        have : x.item_id = it.item_id := by simpa using hx
        simp [this, hne])
      (by simp [hne]) items
  · rw [List.filter_append]
    simp [hne]
  · rfl

theorem update_item_filter_other (now uid tid : String) (u : ItemUpdates)
    (st : SysState) (oid : String) (hne : tid ≠ oid) :
    ((task_manager_update_item now uid tid u st).2).items.filter
        (fun x => x.item_id == oid)
      = st.items.filter (fun x => x.item_id == oid) := by
  unfold task_manager_update_item
  cases hget : get_item st.items tid with
  | none => rfl
  | some existing =>
      have hexid : existing.item_id = tid := by
        have h := List.find?_some hget
        simpa using h
      dsimp only
      split_ifs with howner hres
      · rfl
      · show ({ st with items := _ } : SysState).items.filter _ = _
        dsimp only
        rw [add_or_update_filter_other]
        show existing.item_id ≠ oid
        rw [hexid]; exact hne
      · rfl

theorem send_message_items_eq (b : Bool) (st : SysState) (uid body : String) :
    (send_message b st uid body).items = st.items := by
  unfold send_message add_message_to_user_history bridge_send_message
  split_ifs <;> rfl

theorem send_message_queue_mem (b : Bool) (st : SysState) (uid body : String)
    (q : QEntry) (h : q ∈ st.queue) : q ∈ (send_message b st uid body).queue := by
  unfold send_message add_message_to_user_history bridge_send_message
  split_ifs <;> simp [h]

theorem send_message_queue_new (st : SysState) (uid body : String)
    (huid : uid ≠ "") (hbody : body ≠ "") :
    (⟨uid, body, freshUuid st.uuidCounter⟩ : QEntry)
      ∈ (send_message true st uid body).queue := by
  unfold send_message add_message_to_user_history bridge_send_message
  simp [huid, hbody]

theorem scanReminderItems_queue_mem (parse : String → Option Int) (b : Bool)
    (now : Int) (nowIso lang uid : String) (q : QEntry) :
    ∀ (L : List Item) (st : SysState), q ∈ st.queue →
      q ∈ (scanReminderItems parse b now nowIso lang uid L st).queue := by
  intro L
  induction L with
  | nil => intro st h; exact h
  | cons item rest ih =>
      intro st h
      unfold scanReminderItems
      split_ifs with hskip
      · exact ih st h
      · cases hp : parse (item.remind_at.getD "") with
        | none => exact h
        | some t =>
            dsimp only
            split_ifs with hdue
            · apply ih
              rw [(update_item_state_eq nowIso uid item.item_id
                { status := some "completed" } _).1]
              exact send_message_queue_mem b st uid _ q h
            · exact ih st h

theorem scanReminderItems_filter_other (parse : String → Option Int) (b : Bool)
    (now : Int) (nowIso lang uid oid : String) :
    ∀ (L : List Item) (st : SysState), (∀ x ∈ L, x.item_id ≠ oid) →
      (scanReminderItems parse b now nowIso lang uid L st).items.filter
          (fun x => x.item_id == oid)
        = st.items.filter (fun x => x.item_id == oid) := by
  intro L
  induction L with
  | nil => intro st _; rfl
  | cons item rest ih =>
      intro st hids
      unfold scanReminderItems
      split_ifs with hskip
      · exact ih st (fun x hx => hids x (List.mem_cons_of_mem _ hx))
      · cases hp : parse (item.remind_at.getD "") with
        | none => rfl
        | some t =>
            dsimp only
            split_ifs with hdue
            · rw [ih _ (fun x hx => hids x (List.mem_cons_of_mem _ hx))]
              rw [update_item_filter_other _ _ _ _ _ _
                (hids item (List.mem_cons_self _ _))]
              rw [send_message_items_eq]
            · exact ih st (fun x hx => hids x (List.mem_cons_of_mem _ hx))

theorem add_or_update_replaces (items : List Item) (it r : Item)
    (hrow : items.filter (fun x => x.item_id == r.item_id) = [r])
    (hit : it.item_id = r.item_id) (hid : it.item_id ≠ "")
    (htype : VALID_ITEM_TYPES.contains it.type = true)
    (hstatus : VALID_ITEM_STATUSES.contains it.status = true) :
    (add_or_update_item items it).1 = true ∧
    (add_or_update_item items it).2.filter (fun x => x.item_id == r.item_id)
      = [it] := by
  have hmem : r ∈ items := by
    have : r ∈ items.filter (fun x => x.item_id == r.item_id) := by
      rw [hrow]; exact List.mem_singleton.mpr rfl
    exact (List.mem_filter.mp this).1
  have hany : items.any (fun x => x.item_id == it.item_id) = true := by
    rw [List.any_eq_true]
    exact ⟨r, hmem, by simp [hit]⟩
  unfold add_or_update_item
  rw [if_neg hid, if_pos (by rw [htype, hstatus]; rfl), if_pos hany]
  refine ⟨rfl, ?_⟩
  dsimp only
  have hmap : List.map (fun x => if (x.item_id == it.item_id) = true then it else x) items
      = List.map (fun x => if (x.item_id == r.item_id) = true then it else x) items := by
    simp only [hit]
  rw [hmap]
  exact filter_map_if_singleton (fun x => x.item_id == r.item_id) it
    (by simp [hit]) items r hrow

theorem update_item_completed_filter (nowIso uid : String) (st : SysState)
    (r : Item)
    (hrow : st.items.filter (fun x => x.item_id == r.item_id) = [r])
    (howner : r.user_id = uid) (hid : r.item_id ≠ "")
    (htype : r.type = "reminder") :
    ((task_manager_update_item nowIso uid r.item_id
        { status := some "completed" } st).2).items.filter
        (fun x => x.item_id == r.item_id)
      = [{ r with status := "completed", updated_at := nowIso }] := by
  have hfind : get_item st.items r.item_id = some r := by
    unfold get_item
    exact find?_of_filter_singleton _ _ _ hrow
  unfold task_manager_update_item
  rw [hfind]
  dsimp only
  rw [if_neg (by simp [howner])]
  have hrep := add_or_update_replaces st.items
    ({ applyItemUpdates r { status := some "completed" } with updated_at := nowIso })
    r hrow (by simp [applyItemUpdates]) (by simpa [applyItemUpdates] using hid)
    (by simp [applyItemUpdates, htype, VALID_ITEM_TYPES])
    (by simp [applyItemUpdates, VALID_ITEM_STATUSES])
  rw [if_pos hrep.1]
  dsimp only
  rw [hrep.2]
  simp [applyItemUpdates]

/-- The central delivery lemma for the reminder scan: in the fetched list
L1 ++ r :: L2 of one user, where r is a due new reminder, every row of L1
either is skipped or parses (so the scan reaches r), and no other row shares
the item id of r, one run of the item loop queues the localized notification
for r and leaves exactly the completed copy of r under its item id. -/
theorem scan_delivers (parse : String → Option Int) (now : Int)
    (nowIso lang uid : String) (r : Item) (tr : Int)
    (hrtype : r.type = "reminder") (hrra : truthyStr r.remind_at = true)
    (hparse : parse (r.remind_at.getD "") = some tr) (hdue : tr ≤ now + 60)
    (howner : r.user_id = uid) (hid : r.item_id ≠ "") (huid : uid ≠ "")
    (hmsg : reminder_alert_message lang r.description ≠ "") :
    ∀ (L1 : List Item) (L2 : List Item) (st : SysState),
      (∀ x ∈ L1, (x.type ≠ "reminder" ∨ truthyStr x.remind_at = false) ∨
        ∃ tx, parse (x.remind_at.getD "") = some tx) →
      (∀ x ∈ L1, x.item_id ≠ r.item_id) →
      (∀ x ∈ L2, x.item_id ≠ r.item_id) →
      st.items.filter (fun x => x.item_id == r.item_id) = [r] →
      (∃ mid, (⟨uid, reminder_alert_message lang r.description, mid⟩ : QEntry)
          ∈ (scanReminderItems parse true now nowIso lang uid (L1 ++ r :: L2) st).queue) ∧
      (scanReminderItems parse true now nowIso lang uid (L1 ++ r :: L2) st).items.filter
          (fun x => x.item_id == r.item_id)
        = [{ r with status := "completed", updated_at := nowIso }] := by
  intro L1
  induction L1 with
  | nil =>
      intro L2 st _ _ hL2 hrow
      rw [List.nil_append]
      show (∃ mid, _ ∈ (scanReminderItems parse true now nowIso lang uid (r :: L2) st).queue) ∧ _
      unfold scanReminderItems
      rw [if_neg (by simp [hrtype, hrra])]
      rw [hparse]
      dsimp only
      rw [if_pos hdue]
      set st1 := send_message true st uid (reminder_alert_message lang r.description) with hst1
      set st2 := (task_manager_update_item nowIso uid r.item_id
        { status := some "completed" } st1).2 with hst2
      have hq1 : (⟨uid, reminder_alert_message lang r.description,
          freshUuid st.uuidCounter⟩ : QEntry) ∈ st1.queue :=
        send_message_queue_new st uid _ huid hmsg
      have hq2 : (⟨uid, reminder_alert_message lang r.description,
          freshUuid st.uuidCounter⟩ : QEntry) ∈ st2.queue := by
        rw [hst2, (update_item_state_eq nowIso uid r.item_id
          { status := some "completed" } st1).1]
        exact hq1
      have hrow1 : st1.items.filter (fun x => x.item_id == r.item_id) = [r] := by
        rw [hst1, send_message_items_eq]; exact hrow
      have hrow2 : st2.items.filter (fun x => x.item_id == r.item_id)
          = [{ r with status := "completed", updated_at := nowIso }] := by
        rw [hst2]
        exact update_item_completed_filter nowIso uid st1 r hrow1 howner hid hrtype
      constructor
      · exact ⟨freshUuid st.uuidCounter,
          scanReminderItems_queue_mem parse true now nowIso lang uid _ L2 st2 hq2⟩
      · rw [scanReminderItems_filter_other parse true now nowIso lang uid _ L2 st2 hL2]
        exact hrow2
  | cons x L1' ih =>
      intro L2 st hsafe hL1 hL2 hrow
      rw [List.cons_append]
      unfold scanReminderItems
      by_cases hskip : x.type ≠ "reminder" ∨ truthyStr x.remind_at = false
      · rw [if_pos hskip]
        exact ih L2 st (fun y hy => hsafe y (List.mem_cons_of_mem _ hy))
          (fun y hy => hL1 y (List.mem_cons_of_mem _ hy)) hL2 hrow
      · rw [if_neg hskip]
        have hx := hsafe x (List.mem_cons_self _ _)
        rcases hx with hx | ⟨tx, hpx⟩
        · exact absurd hx hskip
        · rw [hpx]
          dsimp only
          by_cases hd : tx ≤ now + 60
          · rw [if_pos hd]
            apply ih L2 _ (fun y hy => hsafe y (List.mem_cons_of_mem _ hy))
              (fun y hy => hL1 y (List.mem_cons_of_mem _ hy)) hL2
            rw [update_item_filter_other _ _ _ _ _ _ (hL1 x (List.mem_cons_self _ _)),
              send_message_items_eq]
            exact hrow
          · rw [if_neg hd]
            exact ih L2 st (fun y hy => hsafe y (List.mem_cons_of_mem _ hy))
              (fun y hy => hL1 y (List.mem_cons_of_mem _ hy)) hL2 hrow

theorem process_user_aborts_first (parse : String → Option Int) (b : Bool)
    (now : Int) (nowIso uid : String) (prefs : Prefs) (st : SysState)
    (bad : Item) (rest : List Item)
    (hactive : prefs.status = "active")
    (hlist : list_items_for_user st.items uid (some ["new"]) = bad :: rest)
    (htype : bad.type = "reminder") (hra : truthyStr bad.remind_at = true)
    (hparse : parse (bad.remind_at.getD "") = none) :
    process_user_reminders parse b now nowIso uid prefs st = st := by
  unfold process_user_reminders
  rw [if_neg (by simp [hactive]), hlist]
  unfold scanReminderItems
  rw [if_neg (by simp [htype, hra]), hparse]

/-- C6 counterexample: the claim, universally over reminder items, says a due
new reminder of an active user is notified and completed by one reminder
scan.  For user 200 the unparseable reminder created later is scanned first;
the ValueError is caught at the per-user level, so the due reminder — which
meets every condition of the claim — is neither notified (the outbound queue
stays empty) nor completed (its row is unchanged) in that scan. -/
theorem reminder_delivery_counterexample :
    dueReminder.status = "new" ∧ dueReminder.type = "reminder" ∧
    testParse (dueReminder.remind_at.getD "") = some (-60) ∧
    ((-60 : Int) ≤ 0 + 60) ∧
    (check_and_send_reminders testParse true 0 "2026-10-12T08:00:00+00:00"
        blockedScanState).queue = [] ∧
    get_item (check_and_send_reminders testParse true 0 "2026-10-12T08:00:00+00:00"
        blockedScanState).items "r-due" = some dueReminder := by
  decide

/-- C6 amended: for a due new reminder r of an active user, one reminder scan
both queues the localized notification for r and leaves exactly the
completed copy of r under its item id — provided the rows of the same user
scanned before r all either get skipped or parse (a parse failure aborts the
rest of that user for the scan) and no other row shares the item id of r;
afterwards a second scan no longer selects r (its status is no longer new),
so r is not notified again. -/
theorem reminder_delivered_once (parse : String → Option Int) (now : Int)
    (nowIso uid : String) (prefs : Prefs) (st : SysState)
    (r : Item) (tr : Int) (L1 L2 : List Item)
    (hstore : st.prefsStore = [(uid, prefs)])
    (hactive : prefs.status = "active")
    (hlist : list_items_for_user st.items uid (some ["new"]) = L1 ++ r :: L2)
    (hsafe : ∀ x ∈ L1, (x.type ≠ "reminder" ∨ truthyStr x.remind_at = false) ∨
      ∃ tx, parse (x.remind_at.getD "") = some tx)
    (hL1 : ∀ x ∈ L1, x.item_id ≠ r.item_id)
    (hL2 : ∀ x ∈ L2, x.item_id ≠ r.item_id)
    (hrow : st.items.filter (fun x => x.item_id == r.item_id) = [r])
    (hrtype : r.type = "reminder") (hrra : truthyStr r.remind_at = true)
    (hparse : parse (r.remind_at.getD "") = some tr) (hdue : tr ≤ now + 60)
    (howner : r.user_id = uid) (hid : r.item_id ≠ "") (huid : uid ≠ "")
    (hmsg : reminder_alert_message prefs.language r.description ≠ "") :
    (∃ mid, (⟨uid, reminder_alert_message prefs.language r.description, mid⟩ : QEntry)
        ∈ (check_and_send_reminders parse true now nowIso st).queue) ∧
    (check_and_send_reminders parse true now nowIso st).items.filter
        (fun x => x.item_id == r.item_id)
      = [{ r with status := "completed", updated_at := nowIso }] ∧
    (∀ x ∈ list_items_for_user
        (check_and_send_reminders parse true now nowIso st).items uid (some ["new"]),
      x.item_id ≠ r.item_id) := by
  have hred : check_and_send_reminders parse true now nowIso st
      = process_user_reminders parse true now nowIso uid prefs st := by
    unfold check_and_send_reminders
    rw [hstore]
    rfl
  have hproc : process_user_reminders parse true now nowIso uid prefs st
      = scanReminderItems parse true now nowIso prefs.language uid (L1 ++ r :: L2) st := by
    unfold process_user_reminders
    rw [if_neg (by simp [hactive]), hlist]
  rw [hred, hproc]
  have h := scan_delivers parse now nowIso prefs.language uid r tr hrtype hrra
    hparse hdue howner hid huid hmsg L1 L2 st hsafe hL1 hL2 hrow
  refine ⟨h.1, h.2, ?_⟩
  intro x hx hxe
  have hmem := mem_list_items_for_user.mp hx
  have hxfil : x ∈ (scanReminderItems parse true now nowIso prefs.language uid
      (L1 ++ r :: L2) st).items.filter (fun y => y.item_id == r.item_id) :=
    List.mem_filter.mpr ⟨hmem.1, by simp [hxe]⟩
  rw [h.2] at hxfil
  have hxeq := List.mem_singleton.mp hxfil
  have hstat := hmem.2.2
  rw [hxeq] at hstat
  simp at hstat

/-- Witness for C6: the solo due reminder of user 300 is queued with the
english template text and completed by one scan, and the follow-up scan list
no longer holds it. -/
theorem reminder_delivered_once_witness :
    (∃ mid, (⟨"300", reminder_alert_message "en" "water plants", mid⟩ : QEntry)
        ∈ (check_and_send_reminders testParse true 0 "2026-10-12T08:00:00+00:00"
            soloScanState).queue) ∧
    (check_and_send_reminders testParse true 0 "2026-10-12T08:00:00+00:00"
        soloScanState).items.filter (fun x => x.item_id == "r-solo")
      = [{ soloReminder with status := "completed", updated_at := "2026-10-12T08:00:00+00:00" }] ∧
    (∀ x ∈ list_items_for_user
        (check_and_send_reminders testParse true 0 "2026-10-12T08:00:00+00:00"
          soloScanState).items "300" (some ["new"]),
      x.item_id ≠ "r-solo") := by
  have h := reminder_delivered_once testParse 0 "2026-10-12T08:00:00+00:00" "300"
    { status := "active", timezone := some "UTC" } soloScanState
    soloReminder (-60) [] [] rfl rfl (by decide)
    (by intro x hx; simp at hx) (by intro x hx; simp at hx)
    (by intro x hx; simp at hx) (by decide) (by decide) (by decide)
    (by decide) (by decide) (by decide) (by decide) (by decide) (by decide)
  exact h

/-- C7 counterexample: the claim says a parse failure on one reminder does
not prevent any other due reminder of the same user from being notified and
completed in the same scan.  For user 400 the unparseable reminder is scanned
first and the caught ValueError ends the scan of that user, so the due
reminder of the same user is neither notified nor completed in that scan. -/
theorem reminder_parse_blocks_same_user_counterexample :
    dueReminder4.status = "new" ∧ dueReminder4.type = "reminder" ∧
    testParse (dueReminder4.remind_at.getD "") = some (-60) ∧
    ((-60 : Int) ≤ 0 + 60) ∧
    testParse (badReminder4.remind_at.getD "") = none ∧
    (check_and_send_reminders testParse true 0 "2026-10-12T08:00:00+00:00"
        blockedScanState4).queue = [] ∧
    get_item (check_and_send_reminders testParse true 0 "2026-10-12T08:00:00+00:00"
        blockedScanState4).items "r-due4" = some dueReminder4 := by
  decide

/-- C7 amended: a parse failure isolates at the user level, not the reminder
level: when the first scanned reminder of one user fails to parse, that whole
user is left untouched for the scan (so the failure does block later
reminders of the same user), while a due new reminder of a different user in
the same scan is still notified and completed. -/
theorem reminder_parse_failure_user_isolated (parse : String → Option Int)
    (now : Int) (nowIso u₁ u₂ : String) (p₁ p₂ : Prefs) (st : SysState)
    (bad : Item) (rest₁ : List Item) (r : Item) (tr : Int) (L1 L2 : List Item)
    (hstore : st.prefsStore = [(u₁, p₁), (u₂, p₂)])
    (hactive1 : p₁.status = "active")
    (h1list : list_items_for_user st.items u₁ (some ["new"]) = bad :: rest₁)
    (hbadtype : bad.type = "reminder") (hbadra : truthyStr bad.remind_at = true)
    (hbadparse : parse (bad.remind_at.getD "") = none)
    (hactive2 : p₂.status = "active")
    (hlist2 : list_items_for_user st.items u₂ (some ["new"]) = L1 ++ r :: L2)
    (hsafe : ∀ x ∈ L1, (x.type ≠ "reminder" ∨ truthyStr x.remind_at = false) ∨
      ∃ tx, parse (x.remind_at.getD "") = some tx)
    (hL1 : ∀ x ∈ L1, x.item_id ≠ r.item_id)
    (hL2 : ∀ x ∈ L2, x.item_id ≠ r.item_id)
    (hrow : st.items.filter (fun x => x.item_id == r.item_id) = [r])
    (hrtype : r.type = "reminder") (hrra : truthyStr r.remind_at = true)
    (hparse : parse (r.remind_at.getD "") = some tr) (hdue : tr ≤ now + 60)
    (howner : r.user_id = u₂) (hid : r.item_id ≠ "") (huid : u₂ ≠ "")
    (hmsg : reminder_alert_message p₂.language r.description ≠ "") :
    process_user_reminders parse true now nowIso u₁ p₁ st = st ∧
    (∃ mid, (⟨u₂, reminder_alert_message p₂.language r.description, mid⟩ : QEntry)
        ∈ (check_and_send_reminders parse true now nowIso st).queue) ∧
    (check_and_send_reminders parse true now nowIso st).items.filter
        (fun x => x.item_id == r.item_id)
      = [{ r with status := "completed", updated_at := nowIso }] := by
  have habort := process_user_aborts_first parse true now nowIso u₁ p₁ st bad rest₁
    hactive1 h1list hbadtype hbadra hbadparse
  have hred : check_and_send_reminders parse true now nowIso st
      = process_user_reminders parse true now nowIso u₂ p₂
          (process_user_reminders parse true now nowIso u₁ p₁ st) := by
    unfold check_and_send_reminders
    rw [hstore]
    rfl
  rw [hred, habort]
  have hproc : process_user_reminders parse true now nowIso u₂ p₂ st
      = scanReminderItems parse true now nowIso p₂.language u₂ (L1 ++ r :: L2) st := by
    unfold process_user_reminders
    rw [if_neg (by simp [hactive2]), hlist2]
  rw [hproc]
  have h := scan_delivers parse now nowIso p₂.language u₂ r tr hrtype hrra
    hparse hdue howner hid huid hmsg L1 L2 st hsafe hL1 hL2 hrow
  exact ⟨rfl, h.1, h.2⟩

/-- Witness for C7: user 600 aborts on the parse failure and is untouched,
while the due reminder of user 700 is queued and completed in the same
scan. -/
theorem reminder_parse_failure_user_isolated_witness :
    process_user_reminders testParse true 0 "2026-10-12T08:00:00+00:00" "600"
        { status := "active", timezone := some "UTC" } twoUserScanState
      = twoUserScanState ∧
    (∃ mid, (⟨"700", reminder_alert_message "en" "send report", mid⟩ : QEntry)
        ∈ (check_and_send_reminders testParse true 0 "2026-10-12T08:00:00+00:00"
            twoUserScanState).queue) ∧
    (check_and_send_reminders testParse true 0 "2026-10-12T08:00:00+00:00"
        twoUserScanState).items.filter (fun x => x.item_id == "r-due7")
      = [{ dueReminder7 with status := "completed", updated_at := "2026-10-12T08:00:00+00:00" }] := by
  exact reminder_parse_failure_user_isolated testParse 0
    "2026-10-12T08:00:00+00:00" "600" "700"
    { status := "active", timezone := some "UTC" }
    { status := "active", timezone := some "UTC" } twoUserScanState
    badReminder6 [] dueReminder7 (-60) [] [] rfl rfl (by decide) (by decide)
    (by decide) (by decide) rfl (by decide)
    (by intro x hx; simp at hx) (by intro x hx; simp at hx)
    (by intro x hx; simp at hx) (by decide) (by decide) (by decide)
    (by decide) (by decide) (by decide) (by decide) (by decide) (by decide)

end Kairo
